import Mathlib

/-!
Shallow embedding of `src/process_frame_leg_raises.py` and
`src/thresholds.py` (repository Bilaalz/physio_pal), together with proofs
about the per-frame leg-raise repetition classifier.

Modelling conventions:
* Python floats are embedded as `ℚ`, Python ints as `ℤ` (counts as `ℕ`).
* `time.perf_counter()` is modelled by a per-frame clock reading
  `FrameInput.now`; all readings taken inside one call of `process` are
  identified, which is the standard abstraction for wall-clock code.
* The geometry helpers (`find_angle`, `get_landmark_features`) live in
  `utils.py`, outside the embedded core; their outputs (`offset_angle`,
  `hip_vertical`, `knee_internal`, `torso_tilt`) are inputs of a frame.
* Drawing calls (`cv2.*`, `draw_text`, …) have no effect on the session
  state and are dropped; the returned `play_sound` value is kept as
  `Option Sound`.
* The numpy arrays `DISPLAY_TEXT` (4 banner flags) and `COUNT_FRAMES`
  (4 banner frame counters) are embedded as lists of length 4.
-/

namespace PhysioPal

/-- Python `int()` on a float: truncation toward zero. -/
def pyInt (q : ℚ) : ℤ := if 0 ≤ q then ⌊q⌋ else ⌈q⌉

/-- The three driving-angle bands `HIP_KNEE_VERT` of a threshold profile. -/
structure Bands where
  NORMAL : ℤ × ℤ
  TRANS : ℤ × ℤ
  PASS : ℤ × ℤ
deriving DecidableEq, Repr

/-- Threshold profile for the leg-raise processor (`thresholds.py`). -/
structure Thresholds where
  HIP_KNEE_VERT : Bands
  KNEE_LOCK_MAX : ℤ
  TORSO_TILT_MAX : ℚ
  REP_MIN_RANGE : ℤ
  HOLD_SEC : ℚ
  OFFSET_THRESH : ℚ
  INACTIVE_THRESH : ℚ
  CNT_FRAME_THRESH : ℤ
deriving DecidableEq, Repr

/-- `get_thresholds_leg_raises_beginner` from `thresholds.py`. -/
def get_thresholds_leg_raises_beginner : Thresholds :=
  { HIP_KNEE_VERT := { NORMAL := (0, 15), TRANS := (16, 60), PASS := (61, 95) }
    KNEE_LOCK_MAX := 20
    TORSO_TILT_MAX := 25
    REP_MIN_RANGE := 35
    HOLD_SEC := 1
    OFFSET_THRESH := 35
    INACTIVE_THRESH := 15
    CNT_FRAME_THRESH := 50 }

/-- `get_thresholds_leg_raises_pro` from `thresholds.py`. -/
def get_thresholds_leg_raises_pro : Thresholds :=
  { HIP_KNEE_VERT := { NORMAL := (0, 20), TRANS := (21, 75), PASS := (76, 95) }
    KNEE_LOCK_MAX := 15
    TORSO_TILT_MAX := 20
    REP_MIN_RANGE := 40
    HOLD_SEC := 3 / 2
    OFFSET_THRESH := 35
    INACTIVE_THRESH := 15
    CNT_FRAME_THRESH := 50 }

/-- The classified states `'s1'`, `'s2'`, `'s3'`. -/
inductive LegState where
  | s1
  | s2
  | s3
deriving DecidableEq, Repr, Fintype

/-- The `play_sound` return value of `ProcessFrame.process`:
`'reset_counters'`, `'incorrect'`, or the stringified correct count. -/
inductive Sound where
  | reset_counters
  | incorrect
  | count (n : ℕ)
deriving DecidableEq, Repr

/-- The mutable `state_tracker` dictionary of `ProcessFrame`. -/
structure SessionState where
  state_seq : List LegState
  prev_state : Option LegState
  curr_state : Option LegState
  s3_enter_time : Option ℚ
  s3_hold_ok : Bool
  rep_min_angle : Option ℤ
  rep_max_angle : Option ℤ
  start_inactive_time : ℚ
  INACTIVE_TIME : ℚ
  start_inactive_time_front : ℚ
  INACTIVE_TIME_FRONT : ℚ
  DISPLAY_TEXT : List Bool
  COUNT_FRAMES : List ℤ
  INCORRECT_POSTURE : Bool
  CORRECT_COUNT : ℕ
  INCORRECT_COUNT : ℕ
deriving DecidableEq, Repr

/-- The tracker as initialised in `ProcessFrame.__init__` at clock `t0`. -/
def initState (t0 : ℚ) : SessionState :=
  { state_seq := []
    prev_state := none
    curr_state := none
    s3_enter_time := none
    s3_hold_ok := false
    rep_min_angle := none
    rep_max_angle := none
    start_inactive_time := t0
    INACTIVE_TIME := 0
    start_inactive_time_front := t0
    INACTIVE_TIME_FRONT := 0
    DISPLAY_TEXT := [false, false, false, false]
    COUNT_FRAMES := [0, 0, 0, 0]
    INCORRECT_POSTURE := false
    CORRECT_COUNT := 0
    INCORRECT_COUNT := 0 }

/-- One frame's worth of inputs to `ProcessFrame.process`: whether pose
landmarks were detected, the geometry-derived angles, and the clock. -/
structure FrameInput where
  landmarks : Bool
  offset_angle : ℚ
  hip_vertical : ℚ
  knee_internal : ℚ
  torso_tilt : ℚ
  now : ℚ
deriving DecidableEq, Repr

/-- `ProcessFrame._get_state`: classify the integer driving angle. -/
def get_state (b : Bands) (a : ℤ) : Option LegState :=
  if b.NORMAL.1 ≤ a ∧ a ≤ b.NORMAL.2 then some LegState.s1
  else if b.TRANS.1 ≤ a ∧ a ≤ b.TRANS.2 then some LegState.s2
  else if b.PASS.1 ≤ a ∧ a ≤ b.PASS.2 then some LegState.s3
  else none

/-- `ProcessFrame._update_state_sequence`. -/
def update_state_sequence (seq : List LegState) (state : Option LegState) :
    List LegState :=
  match state with
  | some LegState.s2 =>
      if (LegState.s3 ∉ seq ∧ seq.count LegState.s2 = 0) ∨
         (LegState.s3 ∈ seq ∧ seq.count LegState.s2 = 1) then
        seq ++ [LegState.s2]
      else seq
  | some LegState.s3 =>
      if LegState.s3 ∉ seq ∧ LegState.s2 ∈ seq then seq ++ [LegState.s3]
      else seq
  | _ => seq

/-- `ProcessFrame._reset_live_flags`. -/
def reset_live_flags (st : SessionState) : SessionState :=
  { st with
    DISPLAY_TEXT := st.DISPLAY_TEXT.map (fun _ => false)
    COUNT_FRAMES := st.COUNT_FRAMES.map (fun _ => 0)
    INCORRECT_POSTURE := false
    s3_enter_time := none
    s3_hold_ok := false
    rep_min_angle := none
    rep_max_angle := none }

/-- `ProcessFrame._hard_reset_all` at clock `now`. -/
def hard_reset_all (st : SessionState) (now : ℚ) : SessionState :=
  let st1 : SessionState :=
    { st with
      CORRECT_COUNT := 0
      INCORRECT_COUNT := 0
      state_seq := []
      prev_state := none
      curr_state := none }
  let st2 := reset_live_flags st1
  { st2 with
    INACTIVE_TIME := 0
    start_inactive_time := now
    INACTIVE_TIME_FRONT := 0
    start_inactive_time_front := now }

/-- The fixed hold target hard-coded in `ProcessFrame.process`
(`TARGET_HOLD = 5.0`). -/
def TARGET_HOLD : ℚ := 5

/-- Lines 189–205: no pose landmarks detected. -/
def no_landmarks_step (th : Thresholds) (st : SessionState) (now : ℚ) :
    SessionState × Option Sound :=
  let st :=
    { st with
      INACTIVE_TIME := st.INACTIVE_TIME + (now - st.start_inactive_time)
      start_inactive_time := now }
  if st.INACTIVE_TIME ≥ th.INACTIVE_THRESH then
    (hard_reset_all st now, some Sound.reset_counters)
  else (st, none)

/-- Lines 222–252: camera misaligned (`offset_angle > OFFSET_THRESH`). -/
def offset_step (th : Thresholds) (st : SessionState) (now : ℚ) :
    SessionState × Option Sound :=
  let st :=
    { st with
      INACTIVE_TIME_FRONT :=
        st.INACTIVE_TIME_FRONT + (now - st.start_inactive_time_front)
      start_inactive_time_front := now }
  let p :=
    if st.INACTIVE_TIME_FRONT ≥ th.INACTIVE_THRESH then
      (hard_reset_all st now, some Sound.reset_counters)
    else (st, none)
  ({ p.1 with INACTIVE_TIME := 0, start_inactive_time := now }, p.2)

/-- Lines 300–308: per-rep min/max driving-angle tracking. -/
def track_min_max (st : SessionState) (ang : ℤ) : SessionState :=
  if LegState.s2 ∈ st.state_seq then
    match st.rep_min_angle with
    | none => { st with rep_min_angle := some ang, rep_max_angle := some ang }
    | some mn =>
        { st with
          rep_min_angle := some (min mn ang)
          rep_max_angle := st.rep_max_angle.map (fun mx => max mx ang) }
  else st

/-- Lines 310–320: the fixed 5-second hold timer at s3. -/
def hold_update (st : SessionState) (current : Option LegState) (now : ℚ) :
    SessionState :=
  if current = some LegState.s3 then
    match st.s3_enter_time with
    | none => { st with s3_enter_time := some now }
    | some t0 =>
        if now - t0 ≥ TARGET_HOLD then { st with s3_hold_ok := true } else st
  else { st with s3_enter_time := none }

/-- Lines 322–328: suppress knee/torso cues while in s3. -/
def suppress_s3 (st : SessionState) (current : Option LegState) :
    SessionState :=
  if current = some LegState.s3 then
    { st with
      DISPLAY_TEXT := (st.DISPLAY_TEXT.set 0 false).set 1 false
      COUNT_FRAMES := (st.COUNT_FRAMES.set 0 0).set 1 0 }
  else st

/-- Lines 335–361: the interior of the s1 resolution block — the
s3→s1 drop check and the CORRECT/INCORRECT decision — before the
end-of-rep clearing of lines 362–364. -/
def resolve_branch (th : Thresholds) (st : SessionState) :
    SessionState × Option Sound :=
  let st :=
    if st.prev_state = some LegState.s3 then
      { st with
        DISPLAY_TEXT := st.DISPLAY_TEXT.set 3 true
        INCORRECT_POSTURE := true }
    else st
  let haveFullSeq : Bool :=
    st.state_seq.length == 3 &&
      st.state_seq == [LegState.s2, LegState.s3, LegState.s2]
  let rangeOk : Bool :=
    match st.rep_min_angle, st.rep_max_angle with
    | some mn, some mx => decide (mx - mn ≥ th.REP_MIN_RANGE)
    | _, _ => false
  if haveFullSeq && !st.INCORRECT_POSTURE && st.s3_hold_ok && rangeOk then
    ({ st with CORRECT_COUNT := st.CORRECT_COUNT + 1 },
      some (Sound.count (st.CORRECT_COUNT + 1)))
  else
    let st :=
      if LegState.s2 ∈ st.state_seq ∧ LegState.s3 ∉ st.state_seq then
        { st with DISPLAY_TEXT := st.DISPLAY_TEXT.set 2 true }
      else st
    ({ st with INCORRECT_COUNT := st.INCORRECT_COUNT + 1 },
      some Sound.incorrect)

/-- Lines 334–380: rep resolution at s1, or live feedback otherwise. -/
def resolve (th : Thresholds) (st : SessionState) (current : Option LegState)
    (hipVert : ℚ) (kneeFlex : ℤ) (torsoTilt : ℚ) :
    SessionState × Option Sound :=
  if current = some LegState.s1 then
    let p := resolve_branch th st
    (reset_live_flags { p.1 with state_seq := [] }, p.2)
  else
    let st :=
      if current ≠ some LegState.s3 ∧ kneeFlex > th.KNEE_LOCK_MAX then
        { st with
          DISPLAY_TEXT := st.DISPLAY_TEXT.set 0 true
          INCORRECT_POSTURE := true }
      else st
    let st :=
      if current ≠ some LegState.s3 ∧ torsoTilt > th.TORSO_TILT_MAX then
        { st with
          DISPLAY_TEXT := st.DISPLAY_TEXT.set 1 true
          INCORRECT_POSTURE := true }
      else st
    let st :=
      if current = some LegState.s2 ∧
          hipVert < (th.HIP_KNEE_VERT.PASS.1 : ℚ) then
        { st with DISPLAY_TEXT := st.DISPLAY_TEXT.set 2 true }
      else st
    (st, none)

/-- Lines 382–395: side-view inactivity accumulation; a reset here
overwrites any `play_sound` produced by rep resolution. -/
def side_inactivity (th : Thresholds) (st : SessionState) (now : ℚ)
    (sound : Option Sound) : SessionState × Option Sound :=
  if st.curr_state = st.prev_state then
    let st :=
      { st with
        INACTIVE_TIME := st.INACTIVE_TIME + (now - st.start_inactive_time)
        start_inactive_time := now }
    if st.INACTIVE_TIME ≥ th.INACTIVE_THRESH then
      (hard_reset_all st now, some Sound.reset_counters)
    else (st, sound)
  else
    ({ st with start_inactive_time := now, INACTIVE_TIME := 0 }, sound)

/-- Lines 427–435: banner frame counters and their time-to-live sweep. -/
def banner_ttl (th : Thresholds) (st : SessionState) : SessionState :=
  let counts :=
    List.zipWith (fun c d => if d then c + 1 else c) st.COUNT_FRAMES
      st.DISPLAY_TEXT
  let disp :=
    List.zipWith (fun d c => if c > th.CNT_FRAME_THRESH then false else d)
      st.DISPLAY_TEXT counts
  let counts2 := counts.map fun c => if c > th.CNT_FRAME_THRESH then 0 else c
  { st with DISPLAY_TEXT := disp, COUNT_FRAMES := counts2 }

/-- Lines 254–328: camera-aligned bookkeeping before the counting block —
front-timer reset, state classification, sequence update, min/max
tracking, hold timing and s3 cue suppression. -/
def pre_resolution (th : Thresholds) (st : SessionState) (inp : FrameInput) :
    SessionState :=
  let st :=
    { st with INACTIVE_TIME_FRONT := 0, start_inactive_time_front := inp.now }
  let current := get_state th.HIP_KNEE_VERT (pyInt inp.hip_vertical)
  let st := { st with curr_state := current }
  let st := { st with state_seq := update_state_sequence st.state_seq current }
  let st := track_min_max st (pyInt inp.hip_vertical)
  let st := hold_update st current inp.now
  suppress_s3 st current

/-- Lines 254–440: the aligned-camera main path of `process`. -/
def main_step (th : Thresholds) (st : SessionState) (inp : FrameInput) :
    SessionState × Option Sound :=
  let kneeFlex : ℤ := max 0 (180 - pyInt inp.knee_internal)
  let current := get_state th.HIP_KNEE_VERT (pyInt inp.hip_vertical)
  let st := pre_resolution th st inp
  let p := resolve th st current inp.hip_vertical kneeFlex inp.torso_tilt
  let q := side_inactivity th p.1 inp.now p.2
  let st := banner_ttl th q.1
  ({ st with prev_state := current }, q.2)

/-- `ProcessFrame.process`: one frame. -/
def process (th : Thresholds) (st : SessionState) (inp : FrameInput) :
    SessionState × Option Sound :=
  if inp.landmarks = true then
    if inp.offset_angle > th.OFFSET_THRESH then offset_step th st inp.now
    else main_step th st inp
  else no_landmarks_step th st inp.now

/-- Fold `process` over a list of frames, keeping only the state. -/
def processRun (th : Thresholds) (st : SessionState)
    (l : List FrameInput) : SessionState :=
  l.foldl (fun s i => (process th s i).1) st

/-- The leg-raise-beginner profile, used by the scenario claims. -/
def thB : Thresholds := get_thresholds_leg_raises_beginner

/-- A frame with landmarks, aligned camera, and no form violations
(knee flexion within `KNEE_LOCK_MAX = 20`, torso tilt within
`TORSO_TILT_MAX = 25` of the beginner profile). -/
def goodFrame (i : FrameInput) : Prop :=
  i.landmarks = true ∧ i.offset_angle ≤ 35 ∧
    max 0 (180 - pyInt i.knee_internal) ≤ 20 ∧ i.torso_tilt ≤ 25

/-- Driving angle in the beginner NORMAL band (state s1). -/
def inS1 (i : FrameInput) : Prop :=
  0 ≤ pyInt i.hip_vertical ∧ pyInt i.hip_vertical ≤ 15

/-- Driving angle in the beginner TRANS band (state s2). -/
def inS2 (i : FrameInput) : Prop :=
  16 ≤ pyInt i.hip_vertical ∧ pyInt i.hip_vertical ≤ 60

/-- Driving angle in the beginner PASS band (state s3). -/
def inS3 (i : FrameInput) : Prop :=
  61 ≤ pyInt i.hip_vertical ∧ pyInt i.hip_vertical ≤ 95

/-- Clock reading of the last frame of `l` (defaulting to `t`). -/
def lastTime (t : ℚ) (l : List FrameInput) : ℚ :=
  l.foldl (fun _ i => i.now) t

/-- Frame clocks are nondecreasing, starting from `t`. -/
def Mono : ℚ → List FrameInput → Prop
  | _, [] => True
  | t, i :: l => t ≤ i.now ∧ Mono i.now l

/-- Running minimum of the integer driving angles of `l`, seeded at `a`. -/
def minFold (a : ℤ) (l : List FrameInput) : ℤ :=
  l.foldl (fun m i => min m (pyInt i.hip_vertical)) a

/-- Running maximum of the integer driving angles of `l`, seeded at `a`. -/
def maxFold (a : ℤ) (l : List FrameInput) : ℤ :=
  l.foldl (fun m i => max m (pyInt i.hip_vertical)) a

/-- The values `state_seq` can reach: the four initial segments of
`[s2, s3, s2]`. -/
def Reach : List (List LegState) :=
  [[], [LegState.s2], [LegState.s2, LegState.s3],
    [LegState.s2, LegState.s3, LegState.s2]]

/-- The rep_min/rep_max well-formedness invariant of the session state:
the two fields are set together, and ordered when set. -/
def MinMaxInv (st : SessionState) : Prop :=
  (st.rep_min_angle = none ↔ st.rep_max_angle = none) ∧
    ∀ mn mx, st.rep_min_angle = some mn → st.rep_max_angle = some mx →
      mn ≤ mx

/-- The conditions under which the s1 resolution of a frame with integer
driving angle `ang` classifies the rep attempt as CORRECT, phrased
against the state `st` entering the frame: full sequence, no drop from
s3, no latched posture violation, hold recorded, and sufficient range
after the frame's own min/max update. -/
def correct_rep_cond (th : Thresholds) (st : SessionState) (ang : ℤ) :
    Prop :=
  st.state_seq = [LegState.s2, LegState.s3, LegState.s2] ∧
  st.prev_state ≠ some LegState.s3 ∧
  st.INCORRECT_POSTURE = false ∧
  st.s3_hold_ok = true ∧
  ∃ mn mx, (track_min_max st ang).rep_min_angle = some mn ∧
    (track_min_max st ang).rep_max_angle = some mx ∧
    th.REP_MIN_RANGE ≤ mx - mn

/-- A frame that reaches the main (landmarks present, camera aligned)
path of `process`. -/
def mainFrame (th : Thresholds) (i : FrameInput) : Prop :=
  i.landmarks = true ∧ ¬ i.offset_angle > th.OFFSET_THRESH

/-- Banner `idx` is active at the end of every frame of the run `l`
started from `st`. -/
def activeRun (th : Thresholds) (idx : ℕ) :
    SessionState → List FrameInput → Prop
  | _, [] => True
  | st, i :: l =>
      (process th st i).1.DISPLAY_TEXT.getD idx false = true ∧
        activeRun th idx (process th st i).1 l

/-- A resting frame of Scenario A/B: classified s1 (angle 5 or 30 etc.),
landmarks present, aligned, knee straight, torso level. -/
def mkFrame (hip : ℚ) (t : ℚ) : FrameInput :=
  { landmarks := true, offset_angle := 0, hip_vertical := hip,
    knee_internal := 180, torso_tilt := 0, now := t }

/-- Scenario A of the spec: angles [5,5,30,70,70,70,70,30,5] with 1.2 s
of dwell in s3 (frames at 0.3 s … 1.5 s). -/
def scenarioA : List FrameInput :=
  List.zipWith mkFrame [5, 5, 30, 70, 70, 70, 70, 30, 5]
    [0, 1/10, 2/10, 3/10, 7/10, 11/10, 15/10, 16/10, 17/10]

/-- Scenario A with the s3 dwell stretched to 5.2 s, enough for the
code's fixed 5-second hold timer. -/
def scenarioA5 : List FrameInput :=
  List.zipWith mkFrame [5, 5, 30, 70, 70, 70, 70, 30, 5]
    [0, 1/10, 2/10, 3/10, 2, 4, 55/10, 56/10, 57/10]

/-- Scenario B of the spec: angles [5,30,70,30,5] with only 0.3 s of
dwell in s3. -/
def scenarioB : List FrameInput :=
  List.zipWith mkFrame [5, 30, 70, 30, 5] [0, 1/10, 2/10, 5/10, 6/10]

/-- A leg-raise with 1.2 s of continuous dwell in s3 (two s3 frames at
0.2 s and 1.4 s): at least `HOLD_SEC = 1.0` of the beginner profile,
far below the code's fixed 5-second target. -/
def dwell12 : List FrameInput :=
  List.zipWith mkFrame [5, 30, 70, 70] [0, 1/10, 2/10, 14/10]

/-- Invariant of the resting phase (consecutive s1 frames after a
resolution): empty sequence, clean per-rep fields, counters `C`/`I`,
side-view inactivity accumulated since `t1` with anchor `tprev`. -/
def RestInv (st : SessionState) (C I : ℕ) (tprev t1 : ℚ) : Prop :=
  st.state_seq = [] ∧ st.prev_state = some LegState.s1 ∧
  st.curr_state = some LegState.s1 ∧
  st.s3_enter_time = none ∧ st.s3_hold_ok = false ∧
  st.rep_min_angle = none ∧ st.rep_max_angle = none ∧
  st.INCORRECT_POSTURE = false ∧ st.CORRECT_COUNT = C ∧
  st.INCORRECT_COUNT = I ∧
  st.INACTIVE_TIME = tprev - t1 ∧ st.start_inactive_time = tprev

/-- Invariant of the outbound s2 phase: sequence `[s2]`, min/max angles
`mn`/`mx`, phase entered at `t2`, last frame at `tprev`. -/
def S2Inv (st : SessionState) (C I : ℕ) (mn mx : ℤ) (tprev t2 : ℚ) : Prop :=
  st.state_seq = [LegState.s2] ∧ st.prev_state = some LegState.s2 ∧
  st.curr_state = some LegState.s2 ∧
  st.s3_enter_time = none ∧ st.s3_hold_ok = false ∧
  st.rep_min_angle = some mn ∧ st.rep_max_angle = some mx ∧
  st.INCORRECT_POSTURE = false ∧ st.CORRECT_COUNT = C ∧
  st.INCORRECT_COUNT = I ∧
  st.INACTIVE_TIME = tprev - t2 ∧ st.start_inactive_time = tprev

/-- Invariant of the s3 peak phase: sequence `[s2, s3]`, hold timer
anchored at `tenter` (the first s3 frame), hold flag recorded exactly
when some frame has seen 5 s of dwell — equivalently, under monotone
clocks, when the last frame `tprev` has. -/
def S3Inv (st : SessionState) (C I : ℕ) (mn mx : ℤ) (tenter tprev : ℚ) :
    Prop :=
  st.state_seq = [LegState.s2, LegState.s3] ∧
  st.prev_state = some LegState.s3 ∧
  st.curr_state = some LegState.s3 ∧
  st.s3_enter_time = some tenter ∧
  st.s3_hold_ok = decide (5 ≤ tprev - tenter) ∧
  st.rep_min_angle = some mn ∧ st.rep_max_angle = some mx ∧
  st.INCORRECT_POSTURE = false ∧ st.CORRECT_COUNT = C ∧
  st.INCORRECT_COUNT = I ∧
  st.INACTIVE_TIME = tprev - tenter ∧ st.start_inactive_time = tprev

/-- Invariant of the inbound s2 phase: full sequence `[s2, s3, s2]`,
hold flag `hb` carried over from the peak, phase entered at `t4`. -/
def S2bInv (st : SessionState) (C I : ℕ) (mn mx : ℤ) (hb : Bool)
    (tprev t4 : ℚ) : Prop :=
  st.state_seq = [LegState.s2, LegState.s3, LegState.s2] ∧
  st.prev_state = some LegState.s2 ∧
  st.curr_state = some LegState.s2 ∧
  st.s3_enter_time = none ∧ st.s3_hold_ok = hb ∧
  st.rep_min_angle = some mn ∧ st.rep_max_angle = some mx ∧
  st.INCORRECT_POSTURE = false ∧ st.CORRECT_COUNT = C ∧
  st.INCORRECT_COUNT = I ∧
  st.INACTIVE_TIME = tprev - t4 ∧ st.start_inactive_time = tprev

/-! ### Basic lemmas about the classification helpers -/

lemma get_state_s1 (a : ℤ) (h1 : 0 ≤ a) (h2 : a ≤ 15) :
    get_state thB.HIP_KNEE_VERT a = some LegState.s1 := by
  simp only [get_state, thB, get_thresholds_leg_raises_beginner]
  rw [if_pos ⟨h1, h2⟩]

lemma get_state_s2 (a : ℤ) (h1 : 16 ≤ a) (h2 : a ≤ 60) :
    get_state thB.HIP_KNEE_VERT a = some LegState.s2 := by
  simp only [get_state, thB, get_thresholds_leg_raises_beginner]
  rw [if_neg (by omega), if_pos ⟨h1, h2⟩]

lemma get_state_s3 (a : ℤ) (h1 : 61 ≤ a) (h2 : a ≤ 95) :
    get_state thB.HIP_KNEE_VERT a = some LegState.s3 := by
  simp only [get_state, thB, get_thresholds_leg_raises_beginner]
  rw [if_neg (by omega), if_neg (by omega), if_pos ⟨h1, h2⟩]

lemma lt_of_pyInt_le (q : ℚ) (n : ℤ) (h : pyInt q ≤ n) : q < ((n : ℚ) + 1) := by
  unfold pyInt at h
  split at h
  · calc q < ⌊q⌋ + 1 := Int.lt_floor_add_one q
      _ ≤ (n : ℚ) + 1 := by exact_mod_cast add_le_add_right (Int.cast_le.mpr h) 1
  · have hq : q ≤ (⌈q⌉ : ℚ) := Int.le_ceil q
    have : (⌈q⌉ : ℚ) ≤ (n : ℚ) := Int.cast_le.mpr h
    linarith

lemma hip_lt_pass (q : ℚ) (h : pyInt q ≤ 60) :
    q < ((thB.HIP_KNEE_VERT.PASS.1 : ℤ) : ℚ) := by
  have := lt_of_pyInt_le q 60 h
  simp only [thB, get_thresholds_leg_raises_beginner]
  norm_num at this ⊢
  exact this

/-! ### C10: hard reset -/

/-- C10: `_hard_reset_all` at a fixed clock reading is idempotent —
applying it twice yields the same Session State as applying it once —
and the state it produces is fully zeroed: counters 0, `state_seq`
empty, prev/curr cleared, per-rep fields and banner flags/counters
cleared, both inactivity accumulators 0 with anchors at the current
time. -/
theorem C10_hard_reset_idempotent (st : SessionState) (now : ℚ) :
    hard_reset_all (hard_reset_all st now) now = hard_reset_all st now ∧
    (hard_reset_all st now).CORRECT_COUNT = 0 ∧
    (hard_reset_all st now).INCORRECT_COUNT = 0 ∧
    (hard_reset_all st now).state_seq = [] ∧
    (hard_reset_all st now).prev_state = none ∧
    (hard_reset_all st now).curr_state = none ∧
    (hard_reset_all st now).s3_enter_time = none ∧
    (hard_reset_all st now).s3_hold_ok = false ∧
    (hard_reset_all st now).rep_min_angle = none ∧
    (hard_reset_all st now).rep_max_angle = none ∧
    (hard_reset_all st now).INCORRECT_POSTURE = false ∧
    (∀ b ∈ (hard_reset_all st now).DISPLAY_TEXT, b = false) ∧
    (∀ c ∈ (hard_reset_all st now).COUNT_FRAMES, c = (0 : ℤ)) ∧
    (hard_reset_all st now).INACTIVE_TIME = 0 ∧
    (hard_reset_all st now).start_inactive_time = now ∧
    (hard_reset_all st now).INACTIVE_TIME_FRONT = 0 ∧
    (hard_reset_all st now).start_inactive_time_front = now := by
  obtain ⟨sq, pv, cu, en, hk0, mn0, mx0, sit, T, sitf, Tf, D, K, P, CC, IC⟩ := st
  simp [hard_reset_all, reset_live_flags, List.map_map, Function.comp]

/-! ### Field-preservation lemmas for the pipeline stages -/

lemma track_min_max_seq (st : SessionState) (a : ℤ) :
    (track_min_max st a).state_seq = st.state_seq := by
  unfold track_min_max
  split
  · split <;> rfl
  · rfl

lemma hold_update_seq (st : SessionState) (c : Option LegState) (n : ℚ) :
    (hold_update st c n).state_seq = st.state_seq := by
  unfold hold_update
  split
  · split
    · rfl
    · split <;> rfl
  · rfl

lemma suppress_s3_seq (st : SessionState) (c : Option LegState) :
    (suppress_s3 st c).state_seq = st.state_seq := by
  unfold suppress_s3
  split <;> rfl

lemma pre_resolution_seq (th : Thresholds) (st : SessionState)
    (i : FrameInput) :
    (pre_resolution th st i).state_seq =
      update_state_sequence st.state_seq
        (get_state th.HIP_KNEE_VERT (pyInt i.hip_vertical)) := by
  unfold pre_resolution
  rw [suppress_s3_seq, hold_update_seq, track_min_max_seq]

lemma resolve_seq (th : Thresholds) (st : SessionState)
    (c : Option LegState) (hv : ℚ) (kf : ℤ) (tt : ℚ) :
    (resolve th st c hv kf tt).1.state_seq = st.state_seq ∨
      (resolve th st c hv kf tt).1.state_seq = [] := by
  unfold resolve
  split
  · right; rfl
  · left
    split_ifs <;> rfl

lemma side_inactivity_seq (th : Thresholds) (st : SessionState) (now : ℚ)
    (snd : Option Sound) :
    (side_inactivity th st now snd).1.state_seq = st.state_seq ∨
      (side_inactivity th st now snd).1.state_seq = [] := by
  unfold side_inactivity
  split
  · dsimp only
    split
    · right; rfl
    · left; rfl
  · left; rfl

lemma main_step_seq (th : Thresholds) (st : SessionState) (i : FrameInput) :
    (main_step th st i).1.state_seq =
      update_state_sequence st.state_seq
        (get_state th.HIP_KNEE_VERT (pyInt i.hip_vertical)) ∨
      (main_step th st i).1.state_seq = [] := by
  unfold main_step
  rcases side_inactivity_seq th
      (resolve th (pre_resolution th st i)
        (get_state th.HIP_KNEE_VERT (pyInt i.hip_vertical)) i.hip_vertical
        (max 0 (180 - pyInt i.knee_internal)) i.torso_tilt).1 i.now
      (resolve th (pre_resolution th st i)
        (get_state th.HIP_KNEE_VERT (pyInt i.hip_vertical)) i.hip_vertical
        (max 0 (180 - pyInt i.knee_internal)) i.torso_tilt).2 with h | h
  · rcases resolve_seq th (pre_resolution th st i)
        (get_state th.HIP_KNEE_VERT (pyInt i.hip_vertical)) i.hip_vertical
        (max 0 (180 - pyInt i.knee_internal)) i.torso_tilt with h2 | h2
    · left
      show (side_inactivity th _ i.now _).1.state_seq = _
      rw [h, h2, pre_resolution_seq]
    · right
      show (side_inactivity th _ i.now _).1.state_seq = _
      rw [h, h2]
  · right
    exact h

lemma update_keeps_reach :
    ∀ seq ∈ Reach, ∀ c : Option LegState,
      update_state_sequence seq c ∈ Reach := by decide

/-! ### The s1 resolution: characterizations of `resolve_branch` -/

lemma resolve_cond_iff (th : Thresholds) (st : SessionState) :
    ((st.state_seq.length == 3 &&
        st.state_seq == [LegState.s2, LegState.s3, LegState.s2] &&
        !st.INCORRECT_POSTURE && st.s3_hold_ok &&
        (match st.rep_min_angle, st.rep_max_angle with
          | some mn, some mx => decide (mx - mn ≥ th.REP_MIN_RANGE)
          | _, _ => false)) = true) ↔
      (st.state_seq = [LegState.s2, LegState.s3, LegState.s2] ∧
        st.INCORRECT_POSTURE = false ∧ st.s3_hold_ok = true ∧
        ∃ mn mx, st.rep_min_angle = some mn ∧ st.rep_max_angle = some mx ∧
          th.REP_MIN_RANGE ≤ mx - mn) := by
  rcases h5 : st.rep_min_angle with _ | mn <;>
    rcases h6 : st.rep_max_angle with _ | mx <;>
    simp [Bool.and_eq_true, Bool.not_eq_true', decide_eq_true_eq] <;>
    aesop

lemma resolve_branch_pos (th : Thresholds) (st : SessionState) (mn mx : ℤ)
    (h1 : st.state_seq = [LegState.s2, LegState.s3, LegState.s2])
    (h2 : st.prev_state ≠ some LegState.s3)
    (h3 : st.INCORRECT_POSTURE = false) (h4 : st.s3_hold_ok = true)
    (h5 : st.rep_min_angle = some mn) (h6 : st.rep_max_angle = some mx)
    (h7 : th.REP_MIN_RANGE ≤ mx - mn) :
    resolve_branch th st =
      ({ st with CORRECT_COUNT := st.CORRECT_COUNT + 1 },
        some (Sound.count (st.CORRECT_COUNT + 1))) := by
  unfold resolve_branch
  rw [if_neg h2]
  rw [if_pos ((resolve_cond_iff th st).mpr
    ⟨h1, h3, h4, mn, mx, h5, h6, h7⟩)]

lemma resolve_branch_neg (th : Thresholds) (st : SessionState)
    (h : ¬ (st.state_seq = [LegState.s2, LegState.s3, LegState.s2] ∧
        st.prev_state ≠ some LegState.s3 ∧
        st.INCORRECT_POSTURE = false ∧ st.s3_hold_ok = true ∧
        ∃ mn mx, st.rep_min_angle = some mn ∧
          st.rep_max_angle = some mx ∧ th.REP_MIN_RANGE ≤ mx - mn)) :
    (resolve_branch th st).2 = some Sound.incorrect ∧
    (resolve_branch th st).1.INCORRECT_COUNT = st.INCORRECT_COUNT + 1 ∧
    (resolve_branch th st).1.CORRECT_COUNT = st.CORRECT_COUNT ∧
    (2 < st.DISPLAY_TEXT.length → LegState.s2 ∈ st.state_seq →
      LegState.s3 ∉ st.state_seq →
      (resolve_branch th st).1.DISPLAY_TEXT.getD 2 false = true) := by
  obtain ⟨sq, pv, cu, en, hk0, mn0, mx0, sit, T, sitf, Tf, D, K, P, CC, IC⟩ := st
  simp only at h ⊢
  unfold resolve_branch
  dsimp only
  simp only [apply_ite SessionState.state_seq, apply_ite SessionState.s3_hold_ok,
    apply_ite SessionState.rep_min_angle, apply_ite SessionState.rep_max_angle,
    apply_ite SessionState.INCORRECT_POSTURE, apply_ite SessionState.CORRECT_COUNT,
    apply_ite SessionState.INCORRECT_COUNT, apply_ite SessionState.DISPLAY_TEXT,
    ite_self]
  rw [if_neg]
  · refine ⟨rfl, rfl, rfl, ?_⟩
    intro hlen hs2 hs3
    dsimp only
    rw [if_pos ⟨hs2, hs3⟩]
    by_cases hd : pv = some LegState.s3
    · rw [if_pos hd]
      rw [List.getD_eq_getElem?_getD,
        List.getElem?_set_eq_of_lt _ (by simpa using hlen)]
      rfl
    · rw [if_neg hd]
      rw [List.getD_eq_getElem?_getD, List.getElem?_set_eq_of_lt _ hlen]
      rfl
  · intro hc
    simp only [Bool.and_eq_true, beq_iff_eq, Bool.not_eq_true',
      decide_eq_true_eq] at hc
    obtain ⟨⟨⟨⟨hlen3, hfull⟩, hpost⟩, hhold⟩, hrange⟩ := hc
    by_cases hd : pv = some LegState.s3
    · rw [if_pos hd] at hpost
      simp at hpost
    · rw [if_neg hd] at hpost
      rcases hmn : mn0 with _ | mn
      · rw [hmn] at hrange
        simp at hrange
      · rcases hmx : mx0 with _ | mx
        · rw [hmn, hmx] at hrange
          simp at hrange
        · rw [hmn, hmx] at hrange
          simp only [decide_eq_true_eq] at hrange
          exact h ⟨hfull, hd, hpost, hhold, mn, mx, hmn, hmx, hrange⟩

/-! ### List helpers and banner-sweep cleanliness -/

lemma mem_zipWith {α β γ : Type} {f : α → β → γ} {l1 : List α}
    {l2 : List β} {c : γ} (h : c ∈ List.zipWith f l1 l2) :
    ∃ a ∈ l1, ∃ b ∈ l2, c = f a b := by
  induction l1 generalizing l2 with
  | nil => simp at h
  | cons a l ih =>
      cases l2 with
      | nil => simp at h
      | cons b m =>
          rcases List.mem_cons.mp h with h | h
          · exact ⟨a, List.mem_cons_self a l, b, List.mem_cons_self b m, h⟩
          · rcases ih h with ⟨x, hx, y, hy, he⟩
            exact ⟨x, List.mem_cons_of_mem a hx, y,
              List.mem_cons_of_mem b hy, he⟩

lemma banner_ttl_clean (th : Thresholds) (st : SessionState)
    (hD : ∀ b ∈ st.DISPLAY_TEXT, b = false)
    (hK : ∀ c ∈ st.COUNT_FRAMES, c = (0 : ℤ)) :
    (∀ b ∈ (banner_ttl th st).DISPLAY_TEXT, b = false) ∧
      (∀ c ∈ (banner_ttl th st).COUNT_FRAMES, c = (0 : ℤ)) := by
  constructor
  · intro b hb
    rcases mem_zipWith hb with ⟨d, hd, c, _, rfl⟩
    have := hD d hd
    subst this
    split <;> rfl
  · intro c hc
    unfold banner_ttl at hc
    dsimp only at hc
    rcases List.mem_map.mp hc with ⟨c1, hc1, rfl⟩
    rcases mem_zipWith hc1 with ⟨k, hk, d, hd, rfl⟩
    have hk0 := hK k hk
    have hd0 := hD d hd
    subst hk0 hd0
    simp

/-! ### Projection lemmas for `resolve_branch` -/

lemma resolve_branch_curr (th : Thresholds) (st : SessionState) :
    (resolve_branch th st).1.curr_state = st.curr_state := by
  unfold resolve_branch
  dsimp only
  split
  · simp [apply_ite SessionState.curr_state]
  · split <;> simp [apply_ite SessionState.curr_state]

lemma resolve_branch_prev (th : Thresholds) (st : SessionState) :
    (resolve_branch th st).1.prev_state = st.prev_state := by
  unfold resolve_branch
  dsimp only
  split
  · simp [apply_ite SessionState.prev_state]
  · split <;> simp [apply_ite SessionState.prev_state]

lemma resolve_branch_T (th : Thresholds) (st : SessionState) :
    (resolve_branch th st).1.INACTIVE_TIME = st.INACTIVE_TIME := by
  unfold resolve_branch
  dsimp only
  split
  · simp [apply_ite SessionState.INACTIVE_TIME]
  · split <;> simp [apply_ite SessionState.INACTIVE_TIME]

lemma resolve_branch_anchor (th : Thresholds) (st : SessionState) :
    (resolve_branch th st).1.start_inactive_time =
      st.start_inactive_time := by
  unfold resolve_branch
  dsimp only
  split
  · simp [apply_ite SessionState.start_inactive_time]
  · split <;> simp [apply_ite SessionState.start_inactive_time]

/-! ### The s1 frame: what `pre_resolution` and `process` do -/

lemma pre_resolution_s1 (st : SessionState) (i : FrameInput)
    (hband : inS1 i) :
    (pre_resolution thB st i).state_seq = st.state_seq ∧
    (pre_resolution thB st i).prev_state = st.prev_state ∧
    (pre_resolution thB st i).curr_state = some LegState.s1 ∧
    (pre_resolution thB st i).s3_enter_time = none ∧
    (pre_resolution thB st i).s3_hold_ok = st.s3_hold_ok ∧
    (pre_resolution thB st i).rep_min_angle =
      (track_min_max st (pyInt i.hip_vertical)).rep_min_angle ∧
    (pre_resolution thB st i).rep_max_angle =
      (track_min_max st (pyInt i.hip_vertical)).rep_max_angle ∧
    (pre_resolution thB st i).INCORRECT_POSTURE = st.INCORRECT_POSTURE ∧
    (pre_resolution thB st i).CORRECT_COUNT = st.CORRECT_COUNT ∧
    (pre_resolution thB st i).INCORRECT_COUNT = st.INCORRECT_COUNT ∧
    (pre_resolution thB st i).INACTIVE_TIME = st.INACTIVE_TIME ∧
    (pre_resolution thB st i).start_inactive_time =
      st.start_inactive_time ∧
    (pre_resolution thB st i).DISPLAY_TEXT = st.DISPLAY_TEXT ∧
    (pre_resolution thB st i).COUNT_FRAMES = st.COUNT_FRAMES := by
  obtain ⟨sq, pv, cu, en, hk0, mn0, mx0, sit, T, sitf, Tf, D, K, P, CC, IC⟩ := st
  have hcur : get_state thB.HIP_KNEE_VERT (pyInt i.hip_vertical) =
      some LegState.s1 := get_state_s1 _ hband.1 hband.2
  unfold pre_resolution
  rw [hcur]
  dsimp only
  unfold update_state_sequence track_min_max hold_update suppress_s3
  dsimp only
  by_cases hs2 : LegState.s2 ∈ sq <;>
    rcases mn0 with _ | mn <;>
    simp [hs2]

lemma process_s1_frame (st : SessionState) (i : FrameInput)
    (hl : i.landmarks = true) (ho : ¬ i.offset_angle > thB.OFFSET_THRESH)
    (hband : inS1 i)
    (hnr : st.prev_state = some LegState.s1 →
      st.INACTIVE_TIME + (i.now - st.start_inactive_time) <
        thB.INACTIVE_THRESH) :
    (process thB st i).2 =
      (resolve_branch thB (pre_resolution thB st i)).2 ∧
    (process thB st i).1.CORRECT_COUNT =
      (resolve_branch thB (pre_resolution thB st i)).1.CORRECT_COUNT ∧
    (process thB st i).1.INCORRECT_COUNT =
      (resolve_branch thB (pre_resolution thB st i)).1.INCORRECT_COUNT ∧
    (process thB st i).1.state_seq = [] ∧
    (process thB st i).1.prev_state = some LegState.s1 ∧
    (process thB st i).1.curr_state = some LegState.s1 ∧
    (process thB st i).1.s3_enter_time = none ∧
    (process thB st i).1.s3_hold_ok = false ∧
    (process thB st i).1.rep_min_angle = none ∧
    (process thB st i).1.rep_max_angle = none ∧
    (process thB st i).1.INCORRECT_POSTURE = false ∧
    (∀ b ∈ (process thB st i).1.DISPLAY_TEXT, b = false) ∧
    (∀ c ∈ (process thB st i).1.COUNT_FRAMES, c = (0 : ℤ)) ∧
    (st.prev_state = some LegState.s1 →
      (process thB st i).1.INACTIVE_TIME =
        st.INACTIVE_TIME + (i.now - st.start_inactive_time)) ∧
    (st.prev_state ≠ some LegState.s1 →
      (process thB st i).1.INACTIVE_TIME = 0) ∧
    (process thB st i).1.start_inactive_time = i.now := by
  have hcur : get_state thB.HIP_KNEE_VERT (pyInt i.hip_vertical) =
      some LegState.s1 := get_state_s1 _ hband.1 hband.2
  obtain ⟨hq, hpv, hcu, hen, hho, hmn, hmx, hpo, hCC, hII, hT, han, hD, hK⟩ :=
    pre_resolution_s1 st i hband
  simp only [process, hl, if_true]
  rw [if_neg ho]
  simp only [main_step, hcur]
  unfold resolve
  rw [if_pos rfl]
  unfold side_inactivity
  dsimp only
  rw [show (reset_live_flags
      { (resolve_branch thB (pre_resolution thB st i)).1 with
        state_seq := ([] : List LegState) }).curr_state =
      some LegState.s1 from by
    show (resolve_branch thB (pre_resolution thB st i)).1.curr_state = _
    rw [resolve_branch_curr, hcu]]
  rw [show (reset_live_flags
      { (resolve_branch thB (pre_resolution thB st i)).1 with
        state_seq := ([] : List LegState) }).prev_state = st.prev_state from by
    show (resolve_branch thB (pre_resolution thB st i)).1.prev_state = _
    rw [resolve_branch_prev, hpv]]
  have hTpre : (reset_live_flags
      { (resolve_branch thB (pre_resolution thB st i)).1 with
        state_seq := ([] : List LegState) }).INACTIVE_TIME =
      st.INACTIVE_TIME := by
    show (resolve_branch thB (pre_resolution thB st i)).1.INACTIVE_TIME = _
    rw [resolve_branch_T, hT]
  have hanpre : (reset_live_flags
      { (resolve_branch thB (pre_resolution thB st i)).1 with
        state_seq := ([] : List LegState) }).start_inactive_time =
      st.start_inactive_time := by
    show (resolve_branch thB
      (pre_resolution thB st i)).1.start_inactive_time = _
    rw [resolve_branch_anchor, han]
  have hDres : ∀ b ∈ (reset_live_flags
      { (resolve_branch thB (pre_resolution thB st i)).1 with
        state_seq := ([] : List LegState) }).DISPLAY_TEXT, b = false := by
    intro b hb
    rcases List.mem_map.mp hb with ⟨x, _, rfl⟩
    rfl
  have hKres : ∀ c ∈ (reset_live_flags
      { (resolve_branch thB (pre_resolution thB st i)).1 with
        state_seq := ([] : List LegState) }).COUNT_FRAMES, c = (0 : ℤ) := by
    intro c hc
    rcases List.mem_map.mp hc with ⟨x, _, rfl⟩
    rfl
  by_cases hprev : st.prev_state = some LegState.s1
  · rw [if_pos (by rw [hprev])]
    try dsimp only
    rw [hTpre, hanpre]
    rw [if_neg (by push_neg; exact hnr hprev)]
    try dsimp only
    refine ⟨by trivial, by trivial, by trivial, by trivial, by trivial,
      by trivial, by trivial, by trivial, by trivial, by trivial, by trivial,
      (banner_ttl_clean thB _ hDres hKres).1,
      (banner_ttl_clean thB _ hDres hKres).2, ?_, ?_, by trivial⟩
    · intro
      rfl
    · intro hne
      exact absurd hprev hne
  · rw [if_neg (by intro hcp; exact hprev hcp.symm)]
    try dsimp only
    refine ⟨by trivial, by trivial, by trivial, by trivial, by trivial,
      by trivial, by trivial, by trivial, by trivial, by trivial, by trivial,
      (banner_ttl_clean thB _ hDres hKres).1,
      (banner_ttl_clean thB _ hDres hKres).2, ?_, ?_, by trivial⟩
    · intro hp
      exact absurd hp hprev
    · intro
      rfl

/-! ### C3: sequence legality -/

/-- C3: the `_update_state_sequence` append rules — for every reachable
`state_seq` (the four initial segments of `[s2, s3, s2]`), `"s2"` is
appended iff (no `"s3"` and zero `"s2"`) or (exactly one `"s3"` and
exactly one `"s2"`), `"s3"` is appended iff no `"s3"` and at least one
`"s2"`, any other state is dropped; `state_seq` stays an initial segment
of `[s2, s3, s2]` across every processed frame; a sequence that never
legally entered s2 never receives `"s3"`, and a resolution at s1 with
`"s3"` missing from `state_seq` classifies the attempt as incorrect. -/
theorem C3_sequence_legality :
    (∀ seq ∈ Reach,
      (update_state_sequence seq (some LegState.s2) =
        if (LegState.s3 ∉ seq ∧ seq.count LegState.s2 = 0) ∨
            (seq.count LegState.s3 = 1 ∧ seq.count LegState.s2 = 1)
        then seq ++ [LegState.s2] else seq) ∧
      (update_state_sequence seq (some LegState.s3) =
        if seq.count LegState.s3 = 0 ∧ 1 ≤ seq.count LegState.s2
        then seq ++ [LegState.s3] else seq) ∧
      update_state_sequence seq (some LegState.s1) = seq ∧
      update_state_sequence seq none = seq) ∧
    (∀ seq : List LegState, LegState.s2 ∉ seq →
      update_state_sequence seq (some LegState.s3) = seq) ∧
    (∀ (th : Thresholds) (st : SessionState) (i : FrameInput),
      st.state_seq ∈ Reach → (process th st i).1.state_seq ∈ Reach) ∧
    (∀ (st : SessionState) (i : FrameInput),
      i.landmarks = true → ¬ i.offset_angle > thB.OFFSET_THRESH → inS1 i →
      (st.prev_state = some LegState.s1 →
        st.INACTIVE_TIME + (i.now - st.start_inactive_time) <
          thB.INACTIVE_THRESH) →
      LegState.s3 ∉ st.state_seq →
      (process thB st i).2 = some Sound.incorrect ∧
      (process thB st i).1.INCORRECT_COUNT = st.INCORRECT_COUNT + 1 ∧
      (process thB st i).1.CORRECT_COUNT = st.CORRECT_COUNT) := by
  refine ⟨by decide, ?_, ?_, ?_⟩
  · intro seq h2
    simp [update_state_sequence, h2]
  · intro th st i hs
    unfold process
    split
    · split
      · unfold offset_step
        dsimp only
        split
        · simp only [hard_reset_all, reset_live_flags]
          exact (by decide : ([] : List LegState) ∈ Reach)
        · exact hs
      · rcases main_step_seq th st i with h | h
        · rw [h]
          exact update_keeps_reach _ hs _
        · rw [h]
          decide
    · unfold no_landmarks_step
      dsimp only
      split
      · simp only [hard_reset_all, reset_live_flags]
        decide
      · exact hs
  · intro st i hl ho hband hnr h3
    obtain ⟨hsound, hC, hI, _⟩ := process_s1_frame st i hl ho hband hnr
    obtain ⟨hq, _, _, _, _, _, _, _, hCC, hII, _, _, _, _⟩ :=
      pre_resolution_s1 st i hband
    have hneq : (pre_resolution thB st i).state_seq ≠
        [LegState.s2, LegState.s3, LegState.s2] := by
      rw [hq]
      intro he
      exact h3 (he ▸ (by simp))
    obtain ⟨h1, h2, h3', _⟩ :=
      resolve_branch_neg thB (pre_resolution thB st i) (fun hc => hneq hc.1)
    refine ⟨by rw [hsound, h1], ?_, ?_⟩
    · rw [hI, h2, hII]
    · rw [hC, h3', hCC]


/-! ### More stage projection lemmas -/

lemma track_min_max_front (st : SessionState) (a : ℤ) :
    (track_min_max st a).INACTIVE_TIME_FRONT = st.INACTIVE_TIME_FRONT ∧
    (track_min_max st a).start_inactive_time_front =
      st.start_inactive_time_front := by
  unfold track_min_max
  split
  · split <;> exact ⟨rfl, rfl⟩
  · exact ⟨rfl, rfl⟩

lemma hold_update_front (st : SessionState) (c : Option LegState) (n : ℚ) :
    (hold_update st c n).INACTIVE_TIME_FRONT = st.INACTIVE_TIME_FRONT ∧
    (hold_update st c n).start_inactive_time_front =
      st.start_inactive_time_front := by
  unfold hold_update
  split
  · split
    · exact ⟨rfl, rfl⟩
    · split <;> exact ⟨rfl, rfl⟩
  · exact ⟨rfl, rfl⟩

lemma suppress_s3_front (st : SessionState) (c : Option LegState) :
    (suppress_s3 st c).INACTIVE_TIME_FRONT = st.INACTIVE_TIME_FRONT ∧
    (suppress_s3 st c).start_inactive_time_front =
      st.start_inactive_time_front := by
  unfold suppress_s3
  split <;> exact ⟨rfl, rfl⟩

lemma pre_resolution_front (th : Thresholds) (st : SessionState)
    (i : FrameInput) :
    (pre_resolution th st i).INACTIVE_TIME_FRONT = 0 ∧
    (pre_resolution th st i).start_inactive_time_front = i.now := by
  unfold pre_resolution
  constructor
  · rw [(suppress_s3_front _ _).1, (hold_update_front _ _ _).1,
      (track_min_max_front _ _).1]
  · rw [(suppress_s3_front _ _).2, (hold_update_front _ _ _).2,
      (track_min_max_front _ _).2]

lemma resolve_branch_front (th : Thresholds) (st : SessionState) :
    (resolve_branch th st).1.INACTIVE_TIME_FRONT = st.INACTIVE_TIME_FRONT ∧
    (resolve_branch th st).1.start_inactive_time_front =
      st.start_inactive_time_front := by
  unfold resolve_branch
  dsimp only
  constructor
  · split
    · simp [apply_ite SessionState.INACTIVE_TIME_FRONT]
    · split <;> simp [apply_ite SessionState.INACTIVE_TIME_FRONT]
  · split
    · simp [apply_ite SessionState.start_inactive_time_front]
    · split <;> simp [apply_ite SessionState.start_inactive_time_front]

lemma resolve_front (th : Thresholds) (st : SessionState)
    (c : Option LegState) (hv : ℚ) (kf : ℤ) (tt : ℚ) :
    (resolve th st c hv kf tt).1.INACTIVE_TIME_FRONT =
      st.INACTIVE_TIME_FRONT ∧
    (resolve th st c hv kf tt).1.start_inactive_time_front =
      st.start_inactive_time_front := by
  unfold resolve
  split
  · dsimp only
    exact ⟨(resolve_branch_front th st).1, (resolve_branch_front th st).2⟩
  · split_ifs <;> exact ⟨rfl, rfl⟩

lemma side_inactivity_front (th : Thresholds) (st : SessionState) (now : ℚ)
    (snd : Option Sound) :
    ((side_inactivity th st now snd).1.INACTIVE_TIME_FRONT =
        st.INACTIVE_TIME_FRONT ∧
      (side_inactivity th st now snd).1.start_inactive_time_front =
        st.start_inactive_time_front) ∨
    ((side_inactivity th st now snd).1.INACTIVE_TIME_FRONT = 0 ∧
      (side_inactivity th st now snd).1.start_inactive_time_front = now) := by
  unfold side_inactivity
  split
  · dsimp only
    split
    · right
      exact ⟨rfl, rfl⟩
    · left
      exact ⟨rfl, rfl⟩
  · left
    exact ⟨rfl, rfl⟩

/-! ### C6: the misaligned-camera branch -/

/-- C6: when the alignment score exceeds `OFFSET_THRESH`, the front-view
inactivity accumulator grows by the elapsed wall-clock time, the
side-view accumulator is zeroed, and the rest of the session state —
`state_seq`, prev/curr state, both counters, per-rep fields, banner
flags — is untouched, with no event; a hard reset (full zeroing, with a
reset event) fires exactly when the grown accumulator reaches
`INACTIVE_THRESH`; on every aligned frame the front-view accumulator is
zeroed and its anchor moved to the frame's clock while classification
proceeds. -/
theorem C6_offset_branch (th : Thresholds) (st : SessionState)
    (i : FrameInput) (hl : i.landmarks = true)
    (ho : i.offset_angle > th.OFFSET_THRESH) :
    (¬ st.INACTIVE_TIME_FRONT + (i.now - st.start_inactive_time_front) ≥
        th.INACTIVE_THRESH →
      process th st i =
        ({ st with
            INACTIVE_TIME_FRONT :=
              st.INACTIVE_TIME_FRONT + (i.now - st.start_inactive_time_front)
            start_inactive_time_front := i.now
            INACTIVE_TIME := 0
            start_inactive_time := i.now }, none)) ∧
    (st.INACTIVE_TIME_FRONT + (i.now - st.start_inactive_time_front) ≥
        th.INACTIVE_THRESH →
      process th st i = (hard_reset_all st i.now, some Sound.reset_counters)) ∧
    (∀ j : FrameInput, j.landmarks = true →
      ¬ j.offset_angle > th.OFFSET_THRESH →
      (process th st j).1.INACTIVE_TIME_FRONT = 0 ∧
      (process th st j).1.start_inactive_time_front = j.now) := by
  obtain ⟨sq, pv, cu, en, hk0, mn0, mx0, sit, T, sitf, Tf, D, K, P, CC, IC⟩ := st
  refine ⟨?_, ?_, ?_⟩
  · intro hlt
    simp only [process, hl, if_true]
    rw [if_pos ho]
    unfold offset_step
    dsimp only
    rw [if_neg hlt]
  · intro hge
    simp only [process, hl, if_true]
    rw [if_pos ho]
    unfold offset_step
    dsimp only
    rw [if_pos hge]
    simp [hard_reset_all, reset_live_flags]
  · intro j hjl hjo
    simp only [process, hjl, if_true]
    rw [if_neg hjo]
    unfold main_step
    dsimp only
    have hpre := pre_resolution_front th
      ⟨sq, pv, cu, en, hk0, mn0, mx0, sit, T, sitf, Tf, D, K, P, CC, IC⟩ j
    have hres := resolve_front th (pre_resolution th
      ⟨sq, pv, cu, en, hk0, mn0, mx0, sit, T, sitf, Tf, D, K, P, CC, IC⟩ j)
      (get_state th.HIP_KNEE_VERT (pyInt j.hip_vertical)) j.hip_vertical
      (max 0 (180 - pyInt j.knee_internal)) j.torso_tilt
    rcases side_inactivity_front th (resolve th (pre_resolution th
        ⟨sq, pv, cu, en, hk0, mn0, mx0, sit, T, sitf, Tf, D, K, P, CC, IC⟩ j)
        (get_state th.HIP_KNEE_VERT (pyInt j.hip_vertical)) j.hip_vertical
        (max 0 (180 - pyInt j.knee_internal)) j.torso_tilt).1 j.now
        (resolve th (pre_resolution th
        ⟨sq, pv, cu, en, hk0, mn0, mx0, sit, T, sitf, Tf, D, K, P, CC, IC⟩ j)
        (get_state th.HIP_KNEE_VERT (pyInt j.hip_vertical)) j.hip_vertical
        (max 0 (180 - pyInt j.knee_internal)) j.torso_tilt).2 with hS | hS
    · constructor
      · show (side_inactivity th _ j.now _).1.INACTIVE_TIME_FRONT = 0
        rw [hS.1, hres.1, hpre.1]
      · show (side_inactivity th _ j.now _).1.start_inactive_time_front = j.now
        rw [hS.2, hres.2, hpre.2]
    · exact ⟨hS.1, hS.2⟩

/-! ### C8: rep range tracking -/

lemma track_MinMaxInv (st : SessionState) (a : ℤ) (h : MinMaxInv st) :
    MinMaxInv (track_min_max st a) := by
  obtain ⟨hiff, hle⟩ := h
  unfold track_min_max
  split
  · rcases hmn : st.rep_min_angle with _ | mn
    · constructor
      · simp
      · intro mn1 mx1 h1 h2
        simp only [Option.some.injEq] at h1 h2
        omega
    · have hmx : ∃ mx, st.rep_max_angle = some mx := by
        rcases hx : st.rep_max_angle with _ | mx
        · exact absurd (hiff.mpr hx) (by simp [hmn])
        · exact ⟨mx, rfl⟩
      obtain ⟨mx, hmx⟩ := hmx
      constructor
      · simp [hmx]
      · intro mn1 mx1 h1 h2
        simp only [hmx, Option.map_some', Option.some.injEq] at h1 h2
        have := hle mn mx hmn hmx
        subst h1 h2
        calc min mn a ≤ a := min_le_right mn a
          _ ≤ max mx a := le_max_right mx a
  · exact ⟨hiff, hle⟩

lemma resolve_minmax (th : Thresholds) (st : SessionState)
    (c : Option LegState) (hv : ℚ) (kf : ℤ) (tt : ℚ) :
    ((resolve th st c hv kf tt).1.rep_min_angle = st.rep_min_angle ∧
      (resolve th st c hv kf tt).1.rep_max_angle = st.rep_max_angle) ∨
    ((resolve th st c hv kf tt).1.rep_min_angle = none ∧
      (resolve th st c hv kf tt).1.rep_max_angle = none) := by
  unfold resolve
  split
  · right
    exact ⟨rfl, rfl⟩
  · left
    split_ifs <;> exact ⟨rfl, rfl⟩

lemma side_minmax (th : Thresholds) (st : SessionState) (now : ℚ)
    (snd : Option Sound) :
    ((side_inactivity th st now snd).1.rep_min_angle = st.rep_min_angle ∧
      (side_inactivity th st now snd).1.rep_max_angle = st.rep_max_angle) ∨
    ((side_inactivity th st now snd).1.rep_min_angle = none ∧
      (side_inactivity th st now snd).1.rep_max_angle = none) := by
  unfold side_inactivity
  split
  · dsimp only
    split
    · right
      exact ⟨rfl, rfl⟩
    · left
      exact ⟨rfl, rfl⟩
  · left
    exact ⟨rfl, rfl⟩

lemma hold_update_minmax (st : SessionState) (c : Option LegState) (n : ℚ) :
    (hold_update st c n).rep_min_angle = st.rep_min_angle ∧
    (hold_update st c n).rep_max_angle = st.rep_max_angle := by
  unfold hold_update
  split
  · split
    · exact ⟨rfl, rfl⟩
    · split <;> exact ⟨rfl, rfl⟩
  · exact ⟨rfl, rfl⟩

lemma suppress_s3_minmax (st : SessionState) (c : Option LegState) :
    (suppress_s3 st c).rep_min_angle = st.rep_min_angle ∧
    (suppress_s3 st c).rep_max_angle = st.rep_max_angle := by
  unfold suppress_s3
  split <;> exact ⟨rfl, rfl⟩

lemma MinMaxInv_of_eq (st1 st2 : SessionState)
    (hmn : st1.rep_min_angle = st2.rep_min_angle)
    (hmx : st1.rep_max_angle = st2.rep_max_angle) (h : MinMaxInv st2) :
    MinMaxInv st1 := by
  unfold MinMaxInv
  rw [hmn, hmx]
  exact h

lemma MinMaxInv_none (st : SessionState) (hmn : st.rep_min_angle = none)
    (hmx : st.rep_max_angle = none) : MinMaxInv st := by
  unfold MinMaxInv
  rw [hmn, hmx]
  exact ⟨Iff.rfl, by simp⟩

/-- C8: whenever `rep_min_angle` and `rep_max_angle` are both set,
`rep_min_angle ≤ rep_max_angle`, and the two are set and cleared
together — an invariant preserved by processing any frame under any
profile; moreover the pair is initialized together to the current
integer driving angle on the first tracked frame once `"s2"` is in
`state_seq`, and thereafter updated with min/max of the current angle,
while frames before `"s2"` leave it untouched. -/
theorem C8_minmax_invariant :
    (∀ (th : Thresholds) (st : SessionState) (i : FrameInput),
      MinMaxInv st → MinMaxInv (process th st i).1) ∧
    (∀ (st : SessionState) (ang : ℤ),
      (LegState.s2 ∉ st.state_seq → track_min_max st ang = st) ∧
      (LegState.s2 ∈ st.state_seq → st.rep_min_angle = none →
        (track_min_max st ang).rep_min_angle = some ang ∧
        (track_min_max st ang).rep_max_angle = some ang) ∧
      (∀ mn mx, LegState.s2 ∈ st.state_seq → st.rep_min_angle = some mn →
        st.rep_max_angle = some mx →
        (track_min_max st ang).rep_min_angle = some (min mn ang) ∧
        (track_min_max st ang).rep_max_angle = some (max mx ang))) := by
  constructor
  · intro th st i h
    unfold process
    split
    · split
      · unfold offset_step
        dsimp only
        split
        · exact MinMaxInv_none _ (by simp [hard_reset_all, reset_live_flags])
            (by simp [hard_reset_all, reset_live_flags])
        · exact MinMaxInv_of_eq _ _ rfl rfl h
      · unfold main_step
        dsimp only
        have h1 : MinMaxInv (pre_resolution th st i) := by
          unfold pre_resolution
          dsimp only
          exact MinMaxInv_of_eq _ _
            ((suppress_s3_minmax _ _).1.trans (hold_update_minmax _ _ _).1)
            ((suppress_s3_minmax _ _).2.trans (hold_update_minmax _ _ _).2)
            (track_MinMaxInv _ _ h)
        have h2 : MinMaxInv (resolve th (pre_resolution th st i)
            (get_state th.HIP_KNEE_VERT (pyInt i.hip_vertical))
            i.hip_vertical (max 0 (180 - pyInt i.knee_internal))
            i.torso_tilt).1 := by
          rcases resolve_minmax th (pre_resolution th st i)
              (get_state th.HIP_KNEE_VERT (pyInt i.hip_vertical))
              i.hip_vertical (max 0 (180 - pyInt i.knee_internal))
              i.torso_tilt with hr | hr
          · exact MinMaxInv_of_eq _ _ hr.1 hr.2 h1
          · exact MinMaxInv_none _ hr.1 hr.2
        have h3 : MinMaxInv (side_inactivity th (resolve th
            (pre_resolution th st i)
            (get_state th.HIP_KNEE_VERT (pyInt i.hip_vertical))
            i.hip_vertical (max 0 (180 - pyInt i.knee_internal))
            i.torso_tilt).1 i.now (resolve th (pre_resolution th st i)
            (get_state th.HIP_KNEE_VERT (pyInt i.hip_vertical))
            i.hip_vertical (max 0 (180 - pyInt i.knee_internal))
            i.torso_tilt).2).1 := by
          rcases side_minmax th (resolve th (pre_resolution th st i)
              (get_state th.HIP_KNEE_VERT (pyInt i.hip_vertical))
              i.hip_vertical (max 0 (180 - pyInt i.knee_internal))
              i.torso_tilt).1 i.now (resolve th (pre_resolution th st i)
              (get_state th.HIP_KNEE_VERT (pyInt i.hip_vertical))
              i.hip_vertical (max 0 (180 - pyInt i.knee_internal))
              i.torso_tilt).2 with hs | hs
          · exact MinMaxInv_of_eq _ _ hs.1 hs.2 h2
          · exact MinMaxInv_none _ hs.1 hs.2
        exact MinMaxInv_of_eq _ _ rfl rfl h3
    · unfold no_landmarks_step
      dsimp only
      split
      · exact MinMaxInv_none _ (by simp [hard_reset_all, reset_live_flags])
          (by simp [hard_reset_all, reset_live_flags])
      · exact MinMaxInv_of_eq _ _ rfl rfl h
  · intro st ang
    refine ⟨?_, ?_, ?_⟩
    · intro hs2
      unfold track_min_max
      rw [if_neg hs2]
    · intro hs2 hmn
      unfold track_min_max
      rw [if_pos hs2, hmn]
      exact ⟨rfl, rfl⟩
    · intro mn mx hs2 hmn hmx
      unfold track_min_max
      rw [if_pos hs2, hmn]
      dsimp only
      rw [hmx]
      exact ⟨rfl, rfl⟩


/-! ### The two outcomes of an s1 resolution -/

lemma s1_cases (st : SessionState) (i : FrameInput)
    (hl : i.landmarks = true) (ho : ¬ i.offset_angle > thB.OFFSET_THRESH)
    (hband : inS1 i)
    (hnr : st.prev_state = some LegState.s1 →
      st.INACTIVE_TIME + (i.now - st.start_inactive_time) <
        thB.INACTIVE_THRESH) :
    (correct_rep_cond thB st (pyInt i.hip_vertical) ∧
      (process thB st i).2 = some (Sound.count (st.CORRECT_COUNT + 1)) ∧
      (process thB st i).1.CORRECT_COUNT = st.CORRECT_COUNT + 1 ∧
      (process thB st i).1.INCORRECT_COUNT = st.INCORRECT_COUNT) ∨
    (¬ correct_rep_cond thB st (pyInt i.hip_vertical) ∧
      (process thB st i).2 = some Sound.incorrect ∧
      (process thB st i).1.INCORRECT_COUNT = st.INCORRECT_COUNT + 1 ∧
      (process thB st i).1.CORRECT_COUNT = st.CORRECT_COUNT) := by
  obtain ⟨hsound, hC, hI, _⟩ := process_s1_frame st i hl ho hband hnr
  obtain ⟨hq, hpv, _, _, hho, hmn, hmx, hpo, hCC, hII, _, _, _, _⟩ :=
    pre_resolution_s1 st i hband
  have hiff : ((pre_resolution thB st i).state_seq =
        [LegState.s2, LegState.s3, LegState.s2] ∧
      (pre_resolution thB st i).prev_state ≠ some LegState.s3 ∧
      (pre_resolution thB st i).INCORRECT_POSTURE = false ∧
      (pre_resolution thB st i).s3_hold_ok = true ∧
      ∃ mn mx, (pre_resolution thB st i).rep_min_angle = some mn ∧
        (pre_resolution thB st i).rep_max_angle = some mx ∧
        thB.REP_MIN_RANGE ≤ mx - mn) ↔
      correct_rep_cond thB st (pyInt i.hip_vertical) := by
    unfold correct_rep_cond
    rw [hq, hpv, hpo, hho, hmn, hmx]
  by_cases hcond : correct_rep_cond thB st (pyInt i.hip_vertical)
  · left
    obtain ⟨h1, h2, h3, h4, mn, mx, h5, h6, h7⟩ := hiff.mpr hcond
    have hrb := resolve_branch_pos thB (pre_resolution thB st i) mn mx
      h1 h2 h3 h4 h5 h6 h7
    refine ⟨hcond, ?_, ?_, ?_⟩
    · rw [hsound, hrb]
      dsimp only
      rw [hCC]
    · rw [hC, hrb]
      dsimp only
      rw [hCC]
    · rw [hI, hrb]
      dsimp only
      rw [hII]
  · right
    obtain ⟨h1, h2, h3, _⟩ := resolve_branch_neg thB (pre_resolution thB st i)
      (fun hc => hcond (hiff.mp hc))
    refine ⟨hcond, ?_, ?_, ?_⟩
    · rw [hsound, h1]
    · rw [hI, h2, hII]
    · rw [hC, h3, hCC]

/-! ### C4: rep resolution outcome -/

/-- C4: on a main-path frame classifying s1 (with no side-view reset),
the rep resolves CORRECT — `correct_count` incremented and the new total
emitted — iff `state_seq` is exactly `[s2, s3, s2]`, the posture flag is
clean and no s3→s1 drop occurred, `s3_hold_ok` is recorded, and the
tracked range (including this frame's angle) reaches `REP_MIN_RANGE`;
otherwise `incorrect_count` is incremented and "incorrect" emitted, and
when `"s2"` was entered but `"s3"` never was, the "RAISE HIGHER" banner
flag is set in the resolution block (`resolve_branch`) — after which the
end-of-rep clearing wipes `state_seq`, every per-rep field, and all
banner flags/counters regardless of outcome. -/
theorem C4_resolution (st : SessionState) (i : FrameInput)
    (hl : i.landmarks = true) (ho : ¬ i.offset_angle > thB.OFFSET_THRESH)
    (hband : inS1 i) (hlen : 2 < st.DISPLAY_TEXT.length)
    (hnr : st.prev_state = some LegState.s1 →
      st.INACTIVE_TIME + (i.now - st.start_inactive_time) <
        thB.INACTIVE_THRESH) :
    (correct_rep_cond thB st (pyInt i.hip_vertical) →
      (process thB st i).2 = some (Sound.count (st.CORRECT_COUNT + 1)) ∧
      (process thB st i).1.CORRECT_COUNT = st.CORRECT_COUNT + 1 ∧
      (process thB st i).1.INCORRECT_COUNT = st.INCORRECT_COUNT) ∧
    (¬ correct_rep_cond thB st (pyInt i.hip_vertical) →
      (process thB st i).2 = some Sound.incorrect ∧
      (process thB st i).1.INCORRECT_COUNT = st.INCORRECT_COUNT + 1 ∧
      (process thB st i).1.CORRECT_COUNT = st.CORRECT_COUNT ∧
      (LegState.s2 ∈ st.state_seq → LegState.s3 ∉ st.state_seq →
        (resolve_branch thB
          (pre_resolution thB st i)).1.DISPLAY_TEXT.getD 2 false = true)) ∧
    (process thB st i).1.state_seq = [] ∧
    (process thB st i).1.rep_min_angle = none ∧
    (process thB st i).1.rep_max_angle = none ∧
    (process thB st i).1.s3_enter_time = none ∧
    (process thB st i).1.s3_hold_ok = false ∧
    (process thB st i).1.INCORRECT_POSTURE = false ∧
    (∀ b ∈ (process thB st i).1.DISPLAY_TEXT, b = false) ∧
    (∀ c ∈ (process thB st i).1.COUNT_FRAMES, c = (0 : ℤ)) := by
  obtain ⟨_, _, _, hq', _, _, hen', hho', hmn', hmx', hpo', hD', hK', _, _, _⟩ :=
    process_s1_frame st i hl ho hband hnr
  obtain ⟨hq, hpv, _, _, hho, hmn, hmx, hpo, hCC, hII, _, _, hD, _⟩ :=
    pre_resolution_s1 st i hband
  refine ⟨?_, ?_, hq', hmn', hmx', hen', hho', hpo', hD', hK'⟩
  · intro hcond
    rcases s1_cases st i hl ho hband hnr with ⟨_, h⟩ | ⟨hnc, _⟩
    · exact h
    · exact absurd hcond hnc
  · intro hncond
    rcases s1_cases st i hl ho hband hnr with ⟨hc, _⟩ | ⟨_, h1, h2, h3⟩
    · exact absurd hc hncond
    · refine ⟨h1, h2, h3, ?_⟩
      intro hs2 hs3
      have hiff : (correct_rep_cond thB st (pyInt i.hip_vertical)) ↔
          ((pre_resolution thB st i).state_seq =
              [LegState.s2, LegState.s3, LegState.s2] ∧
            (pre_resolution thB st i).prev_state ≠ some LegState.s3 ∧
            (pre_resolution thB st i).INCORRECT_POSTURE = false ∧
            (pre_resolution thB st i).s3_hold_ok = true ∧
            ∃ mn mx, (pre_resolution thB st i).rep_min_angle = some mn ∧
              (pre_resolution thB st i).rep_max_angle = some mx ∧
              thB.REP_MIN_RANGE ≤ mx - mn) := by
        unfold correct_rep_cond
        rw [hq, hpv, hpo, hho, hmn, hmx]
      obtain ⟨_, _, _, hb⟩ := resolve_branch_neg thB (pre_resolution thB st i)
        (fun hc => hncond (hiff.mpr hc))
      exact hb (by rw [hD]; exact hlen) (by rw [hq]; exact hs2)
        (by rw [hq]; exact hs3)

/-! ### C5: every s1 frame resolves -/

/-- C5: on every main-path frame classifying s1 (no side-view reset),
rep resolution runs and exactly one of the two counters increases by 1 —
there is no no-op resolution; in particular a resting frame arriving
with an empty `state_seq` increments `incorrect_count` by 1 and emits
"incorrect". -/
theorem C5_no_noop_resolution (st : SessionState) (i : FrameInput)
    (hl : i.landmarks = true) (ho : ¬ i.offset_angle > thB.OFFSET_THRESH)
    (hband : inS1 i)
    (hnr : st.prev_state = some LegState.s1 →
      st.INACTIVE_TIME + (i.now - st.start_inactive_time) <
        thB.INACTIVE_THRESH) :
    (((process thB st i).1.CORRECT_COUNT = st.CORRECT_COUNT + 1 ∧
        (process thB st i).1.INCORRECT_COUNT = st.INCORRECT_COUNT) ∨
      ((process thB st i).1.CORRECT_COUNT = st.CORRECT_COUNT ∧
        (process thB st i).1.INCORRECT_COUNT = st.INCORRECT_COUNT + 1)) ∧
    (st.state_seq = [] →
      (process thB st i).2 = some Sound.incorrect ∧
      (process thB st i).1.INCORRECT_COUNT = st.INCORRECT_COUNT + 1 ∧
      (process thB st i).1.CORRECT_COUNT = st.CORRECT_COUNT) := by
  constructor
  · rcases s1_cases st i hl ho hband hnr with ⟨_, _, h1, h2⟩ | ⟨_, _, h1, h2⟩
    · exact Or.inl ⟨h1, h2⟩
    · exact Or.inr ⟨h2, h1⟩
  · intro hseq
    rcases s1_cases st i hl ho hband hnr with ⟨hc, _⟩ | ⟨_, h1, h2, h3⟩
    · exact absurd hc.1 (by rw [hseq]; simp)
    · exact ⟨h1, h2, h3⟩

/-! ### C9: one event per frame, reset has priority -/

lemma s1_frame_reset (st : SessionState) (i : FrameInput)
    (hl : i.landmarks = true) (ho : ¬ i.offset_angle > thB.OFFSET_THRESH)
    (hband : inS1 i) (hprev : st.prev_state = some LegState.s1)
    (hge : st.INACTIVE_TIME + (i.now - st.start_inactive_time) ≥
      thB.INACTIVE_THRESH) :
    (process thB st i).2 = some Sound.reset_counters ∧
    (process thB st i).1.CORRECT_COUNT = 0 ∧
    (process thB st i).1.INCORRECT_COUNT = 0 := by
  have hcur : get_state thB.HIP_KNEE_VERT (pyInt i.hip_vertical) =
      some LegState.s1 := get_state_s1 _ hband.1 hband.2
  obtain ⟨_, hpv, hcu, _, _, _, _, _, _, _, hT, han, _, _⟩ :=
    pre_resolution_s1 st i hband
  simp only [process, hl, if_true]
  rw [if_neg ho]
  simp only [main_step, hcur]
  unfold resolve
  rw [if_pos rfl]
  unfold side_inactivity
  dsimp only
  rw [show (reset_live_flags
      { (resolve_branch thB (pre_resolution thB st i)).1 with
        state_seq := ([] : List LegState) }).curr_state =
      some LegState.s1 from by
    show (resolve_branch thB (pre_resolution thB st i)).1.curr_state = _
    rw [resolve_branch_curr, hcu]]
  rw [show (reset_live_flags
      { (resolve_branch thB (pre_resolution thB st i)).1 with
        state_seq := ([] : List LegState) }).prev_state =
      some LegState.s1 from by
    show (resolve_branch thB (pre_resolution thB st i)).1.prev_state = _
    rw [resolve_branch_prev, hpv, hprev]]
  rw [if_pos rfl]
  try dsimp only
  rw [show (reset_live_flags
      { (resolve_branch thB (pre_resolution thB st i)).1 with
        state_seq := ([] : List LegState) }).INACTIVE_TIME =
      st.INACTIVE_TIME from by
    show (resolve_branch thB (pre_resolution thB st i)).1.INACTIVE_TIME = _
    rw [resolve_branch_T, hT]]
  rw [show (reset_live_flags
      { (resolve_branch thB (pre_resolution thB st i)).1 with
        state_seq := ([] : List LegState) }).start_inactive_time =
      st.start_inactive_time from by
    show (resolve_branch thB
      (pre_resolution thB st i)).1.start_inactive_time = _
    rw [resolve_branch_anchor, han]]
  rw [if_pos hge]
  exact ⟨rfl, rfl, rfl⟩

/-- C9: each call of `process` returns at most one discrete event — the
sound is one of nothing, reset, incorrect, or a correct-count — and when
an s1 resolution and a side-view inactivity hard reset both fire on the
same frame, the reset event supersedes the resolution event and the
just-incremented counters are zeroed. -/
theorem C9_single_event_priority :
    (∀ (th : Thresholds) (st : SessionState) (i : FrameInput),
      (process th st i).2 = none ∨
      (process th st i).2 = some Sound.reset_counters ∨
      (process th st i).2 = some Sound.incorrect ∨
      ∃ n, (process th st i).2 = some (Sound.count n)) ∧
    (∀ (st : SessionState) (i : FrameInput),
      i.landmarks = true → ¬ i.offset_angle > thB.OFFSET_THRESH →
      inS1 i → st.prev_state = some LegState.s1 →
      st.INACTIVE_TIME + (i.now - st.start_inactive_time) ≥
        thB.INACTIVE_THRESH →
      (process thB st i).2 = some Sound.reset_counters ∧
      (process thB st i).1.CORRECT_COUNT = 0 ∧
      (process thB st i).1.INCORRECT_COUNT = 0) := by
  constructor
  · intro th st i
    rcases h : (process th st i).2 with _ | snd
    · exact Or.inl rfl
    · rcases snd with _ | _ | n
      · exact Or.inr (Or.inl rfl)
      · exact Or.inr (Or.inr (Or.inl rfl))
      · exact Or.inr (Or.inr (Or.inr ⟨n, rfl⟩))
  · intro st i hl ho hband hprev hge
    exact s1_frame_reset st i hl ho hband hprev hge


/-! ### C2: the hold timer -/

lemma track_min_max_keeps (st : SessionState) (a : ℤ) :
    (track_min_max st a).prev_state = st.prev_state ∧
    (track_min_max st a).curr_state = st.curr_state ∧
    (track_min_max st a).INACTIVE_TIME = st.INACTIVE_TIME ∧
    (track_min_max st a).start_inactive_time = st.start_inactive_time ∧
    (track_min_max st a).s3_hold_ok = st.s3_hold_ok ∧
    (track_min_max st a).s3_enter_time = st.s3_enter_time := by
  unfold track_min_max
  split
  · split <;> exact ⟨rfl, rfl, rfl, rfl, rfl, rfl⟩
  · exact ⟨rfl, rfl, rfl, rfl, rfl, rfl⟩

lemma hold_update_keeps (st : SessionState) (c : Option LegState) (n : ℚ) :
    (hold_update st c n).prev_state = st.prev_state ∧
    (hold_update st c n).curr_state = st.curr_state ∧
    (hold_update st c n).INACTIVE_TIME = st.INACTIVE_TIME ∧
    (hold_update st c n).start_inactive_time = st.start_inactive_time := by
  unfold hold_update
  split
  · split
    · exact ⟨rfl, rfl, rfl, rfl⟩
    · split <;> exact ⟨rfl, rfl, rfl, rfl⟩
  · exact ⟨rfl, rfl, rfl, rfl⟩

lemma hold_update_hold (st : SessionState) (c : Option LegState) (n : ℚ) :
    (hold_update st c n).s3_hold_ok = st.s3_hold_ok ∨
      (hold_update st c n).s3_hold_ok = true := by
  unfold hold_update
  split
  · split
    · exact Or.inl rfl
    · split
      · exact Or.inr rfl
      · exact Or.inl rfl
  · exact Or.inl rfl

lemma suppress_s3_keeps (st : SessionState) (c : Option LegState) :
    (suppress_s3 st c).prev_state = st.prev_state ∧
    (suppress_s3 st c).curr_state = st.curr_state ∧
    (suppress_s3 st c).INACTIVE_TIME = st.INACTIVE_TIME ∧
    (suppress_s3 st c).start_inactive_time = st.start_inactive_time ∧
    (suppress_s3 st c).s3_hold_ok = st.s3_hold_ok := by
  unfold suppress_s3
  split <;> exact ⟨rfl, rfl, rfl, rfl, rfl⟩

lemma resolve_live_keeps (th : Thresholds) (st : SessionState)
    (c : Option LegState) (hv : ℚ) (kf : ℤ) (tt : ℚ)
    (hc : c ≠ some LegState.s1) :
    (resolve th st c hv kf tt).1.s3_hold_ok = st.s3_hold_ok ∧
    (resolve th st c hv kf tt).1.prev_state = st.prev_state ∧
    (resolve th st c hv kf tt).1.curr_state = st.curr_state ∧
    (resolve th st c hv kf tt).1.INACTIVE_TIME = st.INACTIVE_TIME ∧
    (resolve th st c hv kf tt).1.start_inactive_time =
      st.start_inactive_time := by
  unfold resolve
  rw [if_neg hc]
  split_ifs <;> exact ⟨rfl, rfl, rfl, rfl, rfl⟩

lemma side_inactivity_hold (th : Thresholds) (st : SessionState) (now : ℚ)
    (snd : Option Sound)
    (h : ¬ (st.curr_state = st.prev_state ∧
      st.INACTIVE_TIME + (now - st.start_inactive_time) ≥
        th.INACTIVE_THRESH)) :
    (side_inactivity th st now snd).1.s3_hold_ok = st.s3_hold_ok := by
  unfold side_inactivity
  split
  · dsimp only
    rw [if_neg (fun hge => h ⟨by assumption, hge⟩)]
  · rfl

/-- C2 (amended): the hold timer at s3 — entering s3 starts the timer if
not already running; on a later s3 frame the flag `s3_hold_ok` is set
exactly when the dwell since the anchor reaches the fixed
`TARGET_HOLD = 5.0` s hard-coded in `process` (the profile's `HOLD_SEC`
is not consulted); once true the flag is not reset by any main-path
non-s1 frame (absent a hard reset), and leaving s3 clears only the timer
anchor; consequently Scenario B (valid sequence and range, 0.3 s dwell)
resolves INCORRECT. -/
theorem C2_hold_timer :
    (∀ (st : SessionState) (now : ℚ),
      (st.s3_enter_time = none →
        hold_update st (some LegState.s3) now =
          { st with s3_enter_time := some now }) ∧
      (∀ t0, st.s3_enter_time = some t0 →
        hold_update st (some LegState.s3) now =
          if now - t0 ≥ TARGET_HOLD then { st with s3_hold_ok := true }
          else st) ∧
      (∀ c, c ≠ some LegState.s3 →
        hold_update st c now = { st with s3_enter_time := none })) ∧
    (∀ (st : SessionState) (i : FrameInput),
      i.landmarks = true → ¬ i.offset_angle > thB.OFFSET_THRESH →
      get_state thB.HIP_KNEE_VERT (pyInt i.hip_vertical) ≠
        some LegState.s1 →
      ¬ (get_state thB.HIP_KNEE_VERT (pyInt i.hip_vertical) =
          st.prev_state ∧
        st.INACTIVE_TIME + (i.now - st.start_inactive_time) ≥
          thB.INACTIVE_THRESH) →
      st.s3_hold_ok = true → (process thB st i).1.s3_hold_ok = true) ∧
    ((process thB (processRun thB (initState 0) (scenarioB.take 4))
        (mkFrame 5 (6/10))).2 = some Sound.incorrect ∧
      (process thB (processRun thB (initState 0) (scenarioB.take 4))
        (mkFrame 5 (6/10))).1.CORRECT_COUNT = 0 ∧
      (process thB (processRun thB (initState 0) (scenarioB.take 4))
        (mkFrame 5 (6/10))).1.INCORRECT_COUNT = 2) := by
  refine ⟨?_, ?_, rfl, rfl, rfl⟩
  · intro st now
    refine ⟨?_, ?_, ?_⟩
    · intro hen
      unfold hold_update
      rw [if_pos rfl, hen]
    · intro t0 hen
      unfold hold_update
      rw [if_pos rfl, hen]
    · intro c hc
      unfold hold_update
      rw [if_neg hc]
  · intro st i hl ho hcur hnr hhold
    simp only [process, hl, if_true]
    rw [if_neg ho]
    unfold main_step
    dsimp only
    obtain ⟨hrH, hrP, hrC, hrT, hrA⟩ := resolve_live_keeps thB
      (pre_resolution thB st i)
      (get_state thB.HIP_KNEE_VERT (pyInt i.hip_vertical)) i.hip_vertical
      (max 0 (180 - pyInt i.knee_internal)) i.torso_tilt hcur
    have hpreP : (pre_resolution thB st i).prev_state = st.prev_state := by
      unfold pre_resolution
      rw [(suppress_s3_keeps _ _).1, (hold_update_keeps _ _ _).1,
        (track_min_max_keeps _ _).1]
    have hpreC : (pre_resolution thB st i).curr_state =
        get_state thB.HIP_KNEE_VERT (pyInt i.hip_vertical) := by
      unfold pre_resolution
      rw [(suppress_s3_keeps _ _).2.1, (hold_update_keeps _ _ _).2.1,
        (track_min_max_keeps _ _).2.1]
    have hpreT : (pre_resolution thB st i).INACTIVE_TIME =
        st.INACTIVE_TIME := by
      unfold pre_resolution
      rw [(suppress_s3_keeps _ _).2.2.1, (hold_update_keeps _ _ _).2.2.1,
        (track_min_max_keeps _ _).2.2.1]
    have hpreA : (pre_resolution thB st i).start_inactive_time =
        st.start_inactive_time := by
      unfold pre_resolution
      rw [(suppress_s3_keeps _ _).2.2.2.1, (hold_update_keeps _ _ _).2.2.2,
        (track_min_max_keeps _ _).2.2.2.1]
    have hpreH : (pre_resolution thB st i).s3_hold_ok = true := by
      unfold pre_resolution
      rw [(suppress_s3_keeps _ _).2.2.2.2]
      rcases hold_update_hold (track_min_max
          { st with
            INACTIVE_TIME_FRONT := 0, start_inactive_time_front := i.now
            curr_state := get_state thB.HIP_KNEE_VERT (pyInt i.hip_vertical)
            state_seq := update_state_sequence st.state_seq
              (get_state thB.HIP_KNEE_VERT (pyInt i.hip_vertical)) }
          (pyInt i.hip_vertical))
          (get_state thB.HIP_KNEE_VERT (pyInt i.hip_vertical)) i.now with
        hh | hh
      · rw [hh, (track_min_max_keeps _ _).2.2.2.2.1]
        exact hhold
      · exact hh
    show (side_inactivity thB _ i.now _).1.s3_hold_ok = true
    rw [side_inactivity_hold _ _ _ _
      (by
        rw [hrC, hrP, hrT, hrA, hpreC, hpreP, hpreT, hpreA]
        exact hnr)]
    rw [hrH, hpreH]

set_option maxRecDepth 40000 in
/-- C2 counterexample: a leg-raise under the beginner profile that dwells
continuously in s3 from 0.2 s to 1.4 s — 1.2 s, beyond the profile's
`HOLD_SEC = 1.0` — still has `s3_hold_ok = false`, because the code
compares against its fixed 5-second `TARGET_HOLD`, not `HOLD_SEC`. -/
theorem C2_counterexample :
    (14 / 10 : ℚ) - 2 / 10 ≥ get_thresholds_leg_raises_beginner.HOLD_SEC ∧
    (processRun thB (initState 0) dwell12).curr_state = some LegState.s3 ∧
    (processRun thB (initState 0) dwell12).s3_enter_time =
      some (2 / 10 : ℚ) ∧
    (processRun thB (initState 0) dwell12).s3_hold_ok = false := by
  have h1 : (processRun thB (initState 0) dwell12).curr_state =
      some LegState.s3 := by with_unfolding_all rfl
  have h2 : (processRun thB (initState 0) dwell12).s3_enter_time =
      some (2 / 10 : ℚ) := by with_unfolding_all rfl
  have h3 : (processRun thB (initState 0) dwell12).s3_hold_ok = false := by
    with_unfolding_all rfl
  exact ⟨by norm_num [get_thresholds_leg_raises_beginner], h1, h2, h3⟩


set_option maxRecDepth 40000 in
/-- C1 counterexample: Scenario A exactly as specified — angles
[5,5,30,70,70,70,70,30,5] with 1.2 s of dwell in s3 — leaves
`correct_count` at 0 (no CORRECT rep: the dwell is checked against the
fixed 5-second `TARGET_HOLD`, not `HOLD_SEC`) and increments
`incorrect_count` three times (once per leading rest frame and once at
the final resolution), contradicting "correct_count increases by exactly
1 and incorrect_count unchanged". -/
theorem C1_counterexample :
    (processRun thB (initState 0) scenarioA).CORRECT_COUNT = 0 ∧
    (processRun thB (initState 0) scenarioA).INCORRECT_COUNT = 3 := by
  constructor
  · with_unfolding_all rfl
  · with_unfolding_all rfl


/-! ### C7: banner time-to-live -/

lemma getD_map {α β : Type} (f : α → β) (l : List α) (i : ℕ) (d1 : α)
    (d2 : β) (h : i < l.length) :
    (l.map f).getD i d2 = f (l.getD i d1) := by
  induction l generalizing i with
  | nil => simp at h
  | cons a t ih =>
      cases i with
      | zero => rfl
      | succ n =>
          simp only [List.map_cons, List.getD_cons_succ]
          exact ih n (by simpa using h)

lemma getD_zipWith {α β γ : Type} (f : α → β → γ) (l1 : List α)
    (l2 : List β) (i : ℕ) (d1 : α) (d2 : β) (d3 : γ)
    (h1 : i < l1.length) (h2 : i < l2.length) :
    (List.zipWith f l1 l2).getD i d3 = f (l1.getD i d1) (l2.getD i d2) := by
  induction l1 generalizing l2 i with
  | nil => simp at h1
  | cons a t ih =>
      cases l2 with
      | nil => simp at h2
      | cons b u =>
          cases i with
          | zero => rfl
          | succ n =>
              simp only [List.zipWith_cons_cons, List.getD_cons_succ]
              exact ih u n (by simpa using h1) (by simpa using h2)

lemma getD_false_of_all {l : List Bool} (h : ∀ b ∈ l, b = false) (i : ℕ) :
    l.getD i false = false := by
  rcases he : l[i]? with _ | b
  · simp [List.getD_eq_getElem?_getD, he]
  · have hb := h b (List.getElem?_mem he)
    simp [List.getD_eq_getElem?_getD, he, hb]

lemma banner_ttl_display (th : Thresholds) (st : SessionState)
    (hD : ∀ b ∈ st.DISPLAY_TEXT, b = false) :
    ∀ b ∈ (banner_ttl th st).DISPLAY_TEXT, b = false := by
  intro b hb
  rcases mem_zipWith hb with ⟨d, hd, c, _, rfl⟩
  have := hD d hd
  subst this
  split <;> rfl

lemma track_min_max_DK (st : SessionState) (a : ℤ) :
    (track_min_max st a).DISPLAY_TEXT = st.DISPLAY_TEXT ∧
    (track_min_max st a).COUNT_FRAMES = st.COUNT_FRAMES := by
  unfold track_min_max
  split
  · split <;> exact ⟨rfl, rfl⟩
  · exact ⟨rfl, rfl⟩

lemma hold_update_DK (st : SessionState) (c : Option LegState) (n : ℚ) :
    (hold_update st c n).DISPLAY_TEXT = st.DISPLAY_TEXT ∧
    (hold_update st c n).COUNT_FRAMES = st.COUNT_FRAMES := by
  unfold hold_update
  split
  · split
    · exact ⟨rfl, rfl⟩
    · split <;> exact ⟨rfl, rfl⟩
  · exact ⟨rfl, rfl⟩

lemma pre_resolution_DK (th : Thresholds) (st : SessionState)
    (i : FrameInput) :
    (pre_resolution th st i).DISPLAY_TEXT =
      (if get_state th.HIP_KNEE_VERT (pyInt i.hip_vertical) =
          some LegState.s3 then
        (st.DISPLAY_TEXT.set 0 false).set 1 false
      else st.DISPLAY_TEXT) ∧
    (pre_resolution th st i).COUNT_FRAMES =
      (if get_state th.HIP_KNEE_VERT (pyInt i.hip_vertical) =
          some LegState.s3 then
        (st.COUNT_FRAMES.set 0 0).set 1 0
      else st.COUNT_FRAMES) := by
  unfold pre_resolution suppress_s3
  dsimp only
  split
  · constructor
    · dsimp only
      rw [(hold_update_DK _ _ _).1, (track_min_max_DK _ _).1]
    · dsimp only
      rw [(hold_update_DK _ _ _).2, (track_min_max_DK _ _).2]
  · constructor
    · rw [(hold_update_DK _ _ _).1, (track_min_max_DK _ _).1]
    · rw [(hold_update_DK _ _ _).2, (track_min_max_DK _ _).2]

lemma resolve_branch_K (th : Thresholds) (st : SessionState) :
    (resolve_branch th st).1.COUNT_FRAMES = st.COUNT_FRAMES := by
  unfold resolve_branch
  dsimp only
  split
  · simp [apply_ite SessionState.COUNT_FRAMES]
  · split <;> simp [apply_ite SessionState.COUNT_FRAMES]

lemma resolve_live_K (th : Thresholds) (st : SessionState)
    (c : Option LegState) (hv : ℚ) (kf : ℤ) (tt : ℚ)
    (hc : c ≠ some LegState.s1) :
    (resolve th st c hv kf tt).1.COUNT_FRAMES = st.COUNT_FRAMES := by
  unfold resolve
  rw [if_neg hc]
  split_ifs <;> rfl

lemma resolve_live_Dlen (th : Thresholds) (st : SessionState)
    (c : Option LegState) (hv : ℚ) (kf : ℤ) (tt : ℚ)
    (hc : c ≠ some LegState.s1) :
    (resolve th st c hv kf tt).1.DISPLAY_TEXT.length =
      st.DISPLAY_TEXT.length := by
  unfold resolve
  rw [if_neg hc]
  split_ifs <;> simp [List.length_set]

lemma resolve_s3_D (th : Thresholds) (st : SessionState) (hv : ℚ) (kf : ℤ)
    (tt : ℚ) :
    (resolve th st (some LegState.s3) hv kf tt).1.DISPLAY_TEXT =
      st.DISPLAY_TEXT := by
  unfold resolve
  simp

lemma resolve_s1_DK (th : Thresholds) (st : SessionState) (hv : ℚ)
    (kf : ℤ) (tt : ℚ) :
    (∀ b ∈ (resolve th st (some LegState.s1) hv kf tt).1.DISPLAY_TEXT,
      b = false) ∧
    (∀ c ∈ (resolve th st (some LegState.s1) hv kf tt).1.COUNT_FRAMES,
      c = (0 : ℤ)) := by
  unfold resolve
  rw [if_pos rfl]
  constructor
  · intro b hb
    rcases List.mem_map.mp hb with ⟨x, _, rfl⟩
    rfl
  · intro c hc
    rcases List.mem_map.mp hc with ⟨x, _, rfl⟩
    rfl

lemma side_DK (th : Thresholds) (st : SessionState) (now : ℚ)
    (snd : Option Sound) :
    ((side_inactivity th st now snd).1.DISPLAY_TEXT = st.DISPLAY_TEXT ∧
      (side_inactivity th st now snd).1.COUNT_FRAMES = st.COUNT_FRAMES) ∨
    ((side_inactivity th st now snd).1.DISPLAY_TEXT =
        st.DISPLAY_TEXT.map (fun _ => false) ∧
      (side_inactivity th st now snd).1.COUNT_FRAMES =
        st.COUNT_FRAMES.map (fun _ => (0 : ℤ))) := by
  unfold side_inactivity
  split
  · dsimp only
    split
    · right
      exact ⟨rfl, rfl⟩
    · left
      exact ⟨rfl, rfl⟩
  · left
    exact ⟨rfl, rfl⟩

lemma banner_ttl_getD (th : Thresholds) (st : SessionState) (idx : ℕ)
    (hD : idx < st.DISPLAY_TEXT.length)
    (hK : idx < st.COUNT_FRAMES.length) :
    (banner_ttl th st).DISPLAY_TEXT.getD idx false =
      (if (if st.DISPLAY_TEXT.getD idx false then
            st.COUNT_FRAMES.getD idx 0 + 1
          else st.COUNT_FRAMES.getD idx 0) > th.CNT_FRAME_THRESH then false
        else st.DISPLAY_TEXT.getD idx false) ∧
    (banner_ttl th st).COUNT_FRAMES.getD idx 0 =
      (if (if st.DISPLAY_TEXT.getD idx false then
            st.COUNT_FRAMES.getD idx 0 + 1
          else st.COUNT_FRAMES.getD idx 0) > th.CNT_FRAME_THRESH then 0
        else (if st.DISPLAY_TEXT.getD idx false then
            st.COUNT_FRAMES.getD idx 0 + 1
          else st.COUNT_FRAMES.getD idx 0)) := by
  unfold banner_ttl
  dsimp only
  have hzlen : idx < (List.zipWith (fun c d => if d then c + 1 else c)
      st.COUNT_FRAMES st.DISPLAY_TEXT).length := by
    rw [List.length_zipWith]
    omega
  constructor
  · rw [getD_zipWith _ _ _ _ false 0 false hD hzlen,
      getD_zipWith _ _ _ _ 0 false 0 hK hD]
  · rw [getD_map _ _ _ 0 0 hzlen,
      getD_zipWith _ _ _ _ 0 false 0 hK hD]

lemma all_false_map {α : Type} (l : List α) :
    ∀ b ∈ l.map (fun _ => false), b = false := by
  intro b hb
  rcases List.mem_map.mp hb with ⟨x, _, rfl⟩
  rfl

lemma banner_mask_elim (d : Bool) (k ttl : ℤ)
    (hact : (if (if d = true then k + 1 else k) > ttl then false else d) =
      true) :
    d = true ∧ ¬ (k + 1 > ttl) := by
  by_cases hcnd : (if d = true then k + 1 else k) > ttl
  · rw [if_pos hcnd] at hact
    exact absurd hact (by simp)
  · rw [if_neg hcnd] at hact
    refine ⟨hact, ?_⟩
    rw [if_pos hact] at hcnd
    exact hcnd

lemma banner_mask_value (d : Bool) (k ttl : ℤ) (hd : d = true)
    (hcnd : ¬ (k + 1 > ttl)) :
    (if (if d = true then k + 1 else k) > ttl then (0 : ℤ)
      else (if d = true then k + 1 else k)) = k + 1 := by
  rw [if_pos hd, if_neg hcnd]

lemma banner_step (st : SessionState) (i : FrameInput) (idx : ℕ)
    (hl : i.landmarks = true) (ho : ¬ i.offset_angle > thB.OFFSET_THRESH)
    (hD4 : st.DISPLAY_TEXT.length = 4) (hK4 : st.COUNT_FRAMES.length = 4)
    (hidx : idx < 4)
    (hact : (process thB st i).1.DISPLAY_TEXT.getD idx false = true) :
    (process thB st i).1.COUNT_FRAMES.getD idx 0 =
      st.COUNT_FRAMES.getD idx 0 + 1 ∧
    (process thB st i).1.COUNT_FRAMES.getD idx 0 ≤
      thB.CNT_FRAME_THRESH := by
  simp only [process, hl, if_true] at hact ⊢
  rw [if_neg ho] at hact ⊢
  unfold main_step at hact ⊢
  dsimp only at hact ⊢
  by_cases hs1 : get_state thB.HIP_KNEE_VERT (pyInt i.hip_vertical) =
      some LegState.s1
  · exfalso
    rw [hs1] at hact
    have hres := resolve_s1_DK thB (pre_resolution thB st i)
      i.hip_vertical (max 0 (180 - pyInt i.knee_internal)) i.torso_tilt
    rcases side_DK thB (resolve thB (pre_resolution thB st i)
        (some LegState.s1) i.hip_vertical
        (max 0 (180 - pyInt i.knee_internal)) i.torso_tilt).1 i.now
        (resolve thB (pre_resolution thB st i) (some LegState.s1)
        i.hip_vertical (max 0 (180 - pyInt i.knee_internal))
        i.torso_tilt).2 with hs | hs
    · have hall : ∀ b ∈ (banner_ttl thB (side_inactivity thB (resolve thB
          (pre_resolution thB st i) (some LegState.s1) i.hip_vertical
          (max 0 (180 - pyInt i.knee_internal)) i.torso_tilt).1 i.now
          (resolve thB (pre_resolution thB st i) (some LegState.s1)
          i.hip_vertical (max 0 (180 - pyInt i.knee_internal))
          i.torso_tilt).2).1).DISPLAY_TEXT, b = false := by
        apply banner_ttl_display
        rw [hs.1]
        exact hres.1
      rw [getD_false_of_all hall idx] at hact
      exact Bool.false_ne_true hact
    · have hall : ∀ b ∈ (banner_ttl thB (side_inactivity thB (resolve thB
          (pre_resolution thB st i) (some LegState.s1) i.hip_vertical
          (max 0 (180 - pyInt i.knee_internal)) i.torso_tilt).1 i.now
          (resolve thB (pre_resolution thB st i) (some LegState.s1)
          i.hip_vertical (max 0 (180 - pyInt i.knee_internal))
          i.torso_tilt).2).1).DISPLAY_TEXT, b = false := by
        apply banner_ttl_display
        rw [hs.1]
        exact all_false_map _
      rw [getD_false_of_all hall idx] at hact
      exact Bool.false_ne_true hact
  · obtain ⟨hDpre, hKpre⟩ := pre_resolution_DK thB st i
    have hKres : (resolve thB (pre_resolution thB st i)
        (get_state thB.HIP_KNEE_VERT (pyInt i.hip_vertical))
        i.hip_vertical (max 0 (180 - pyInt i.knee_internal))
        i.torso_tilt).1.COUNT_FRAMES =
        (pre_resolution thB st i).COUNT_FRAMES :=
      resolve_live_K thB _ _ _ _ _ hs1
    have hDreslen : (resolve thB (pre_resolution thB st i)
        (get_state thB.HIP_KNEE_VERT (pyInt i.hip_vertical))
        i.hip_vertical (max 0 (180 - pyInt i.knee_internal))
        i.torso_tilt).1.DISPLAY_TEXT.length = 4 := by
      rw [resolve_live_Dlen thB _ _ _ _ _ hs1, hDpre]
      split <;> simp [List.length_set, hD4]
    have hKreslen : (resolve thB (pre_resolution thB st i)
        (get_state thB.HIP_KNEE_VERT (pyInt i.hip_vertical))
        i.hip_vertical (max 0 (180 - pyInt i.knee_internal))
        i.torso_tilt).1.COUNT_FRAMES.length = 4 := by
      rw [hKres, hKpre]
      split <;> simp [List.length_set, hK4]
    rcases side_DK thB (resolve thB (pre_resolution thB st i)
        (get_state thB.HIP_KNEE_VERT (pyInt i.hip_vertical))
        i.hip_vertical (max 0 (180 - pyInt i.knee_internal))
        i.torso_tilt).1 i.now (resolve thB (pre_resolution thB st i)
        (get_state thB.HIP_KNEE_VERT (pyInt i.hip_vertical))
        i.hip_vertical (max 0 (180 - pyInt i.knee_internal))
        i.torso_tilt).2 with hs | hs
    · obtain ⟨hbD, hbK⟩ := banner_ttl_getD thB (side_inactivity thB
        (resolve thB (pre_resolution thB st i)
        (get_state thB.HIP_KNEE_VERT (pyInt i.hip_vertical))
        i.hip_vertical (max 0 (180 - pyInt i.knee_internal))
        i.torso_tilt).1 i.now (resolve thB (pre_resolution thB st i)
        (get_state thB.HIP_KNEE_VERT (pyInt i.hip_vertical))
        i.hip_vertical (max 0 (180 - pyInt i.knee_internal))
        i.torso_tilt).2).1 idx (by rw [hs.1, hDreslen]; exact hidx)
        (by rw [hs.2, hKreslen]; exact hidx)
      rw [hbD] at hact
      rw [hbK]
      rw [hs.1, hs.2, hKres, hKpre] at hact ⊢
      by_cases hs3 : get_state thB.HIP_KNEE_VERT (pyInt i.hip_vertical) =
          some LegState.s3
      · rw [if_pos hs3] at hact ⊢
        rw [show (resolve thB (pre_resolution thB st i)
            (get_state thB.HIP_KNEE_VERT (pyInt i.hip_vertical))
            i.hip_vertical (max 0 (180 - pyInt i.knee_internal))
            i.torso_tilt).1.DISPLAY_TEXT =
            (st.DISPLAY_TEXT.set 0 false).set 1 false from by
          rw [hs3]
          rw [resolve_s3_D, hDpre, if_pos hs3]] at hact ⊢
        interval_cases idx
        · rw [show ((st.DISPLAY_TEXT.set 0 false).set 1 false).getD 0
              false = false from by
            rw [List.getD_eq_getElem?_getD, List.getElem?_set_ne
              (by omega), List.getElem?_set_eq_of_lt _ (by omega)]
            rfl] at hact
          simp at hact
        · rw [show ((st.DISPLAY_TEXT.set 0 false).set 1 false).getD 1
              false = false from by
            rw [List.getD_eq_getElem?_getD,
              List.getElem?_set_eq_of_lt _ (by rw [List.length_set]; omega)]
            rfl] at hact
          simp at hact
        · rw [show ((st.COUNT_FRAMES.set 0 0).set 1 0).getD 2 0 =
              st.COUNT_FRAMES.getD 2 0 from by
            rw [List.getD_eq_getElem?_getD, List.getElem?_set_ne
              (by omega), List.getElem?_set_ne (by omega),
              ← List.getD_eq_getElem?_getD]] at hact ⊢
          obtain ⟨hd2, hcnd⟩ := banner_mask_elim _ _ _ hact
          rw [banner_mask_value _ _ _ hd2 hcnd]
          exact ⟨rfl, by omega⟩
        · rw [show ((st.COUNT_FRAMES.set 0 0).set 1 0).getD 3 0 =
              st.COUNT_FRAMES.getD 3 0 from by
            rw [List.getD_eq_getElem?_getD, List.getElem?_set_ne
              (by omega), List.getElem?_set_ne (by omega),
              ← List.getD_eq_getElem?_getD]] at hact ⊢
          obtain ⟨hd2, hcnd⟩ := banner_mask_elim _ _ _ hact
          rw [banner_mask_value _ _ _ hd2 hcnd]
          exact ⟨rfl, by omega⟩
      · rw [if_neg hs3] at hact ⊢
        obtain ⟨hd2, hcnd⟩ := banner_mask_elim _ _ _ hact
        rw [banner_mask_value _ _ _ hd2 hcnd]
        exact ⟨rfl, by omega⟩
    · exfalso
      have hall : ∀ b ∈ (banner_ttl thB (side_inactivity thB (resolve thB
          (pre_resolution thB st i)
          (get_state thB.HIP_KNEE_VERT (pyInt i.hip_vertical))
          i.hip_vertical (max 0 (180 - pyInt i.knee_internal))
          i.torso_tilt).1 i.now (resolve thB (pre_resolution thB st i)
          (get_state thB.HIP_KNEE_VERT (pyInt i.hip_vertical))
          i.hip_vertical (max 0 (180 - pyInt i.knee_internal))
          i.torso_tilt).2).1).DISPLAY_TEXT, b = false := by
        apply banner_ttl_display
        rw [hs.1]
        exact all_false_map _
      rw [getD_false_of_all hall idx] at hact
      exact Bool.false_ne_true hact


lemma resolve_branch_Dlen (th : Thresholds) (st : SessionState) :
    (resolve_branch th st).1.DISPLAY_TEXT.length =
      st.DISPLAY_TEXT.length := by
  unfold resolve_branch
  dsimp only
  split
  · simp [apply_ite SessionState.DISPLAY_TEXT, apply_ite List.length,
      List.length_set]
  · split <;> simp [apply_ite SessionState.DISPLAY_TEXT,
      apply_ite List.length, List.length_set]

lemma resolve_len (th : Thresholds) (st : SessionState)
    (c : Option LegState) (hv : ℚ) (kf : ℤ) (tt : ℚ)
    (hD4 : st.DISPLAY_TEXT.length = 4) (hK4 : st.COUNT_FRAMES.length = 4) :
    (resolve th st c hv kf tt).1.DISPLAY_TEXT.length = 4 ∧
    (resolve th st c hv kf tt).1.COUNT_FRAMES.length = 4 := by
  unfold resolve
  split
  · dsimp only
    unfold reset_live_flags
    dsimp only
    constructor
    · rw [List.length_map]
      show (resolve_branch th st).1.DISPLAY_TEXT.length = 4
      rw [resolve_branch_Dlen, hD4]
    · rw [List.length_map]
      show (resolve_branch th st).1.COUNT_FRAMES.length = 4
      rw [resolve_branch_K, hK4]
  · split_ifs <;> constructor <;> simp [List.length_set, hD4, hK4]

lemma side_len (th : Thresholds) (st : SessionState) (now : ℚ)
    (snd : Option Sound) (hD4 : st.DISPLAY_TEXT.length = 4)
    (hK4 : st.COUNT_FRAMES.length = 4) :
    (side_inactivity th st now snd).1.DISPLAY_TEXT.length = 4 ∧
    (side_inactivity th st now snd).1.COUNT_FRAMES.length = 4 := by
  rcases side_DK th st now snd with ⟨h1, h2⟩ | ⟨h1, h2⟩ <;>
    constructor <;> simp [h1, h2, hD4, hK4]

lemma pre_len (th : Thresholds) (st : SessionState) (i : FrameInput)
    (hD4 : st.DISPLAY_TEXT.length = 4) (hK4 : st.COUNT_FRAMES.length = 4) :
    (pre_resolution th st i).DISPLAY_TEXT.length = 4 ∧
    (pre_resolution th st i).COUNT_FRAMES.length = 4 := by
  obtain ⟨h1, h2⟩ := pre_resolution_DK th st i
  rw [h1, h2]
  constructor <;> split <;> simp [List.length_set, hD4, hK4]

lemma banner_ttl_len4 (th : Thresholds) (st : SessionState)
    (hD4 : st.DISPLAY_TEXT.length = 4) (hK4 : st.COUNT_FRAMES.length = 4) :
    (banner_ttl th st).DISPLAY_TEXT.length = 4 ∧
    (banner_ttl th st).COUNT_FRAMES.length = 4 := by
  unfold banner_ttl
  dsimp only
  constructor <;> simp [List.length_zipWith, List.length_map, hD4, hK4]

lemma process_lengths (th : Thresholds) (st : SessionState)
    (i : FrameInput) (hD4 : st.DISPLAY_TEXT.length = 4)
    (hK4 : st.COUNT_FRAMES.length = 4) :
    (process th st i).1.DISPLAY_TEXT.length = 4 ∧
    (process th st i).1.COUNT_FRAMES.length = 4 := by
  unfold process
  split
  · split
    · unfold offset_step
      dsimp only
      split
      · constructor <;>
          simp [hard_reset_all, reset_live_flags, hD4, hK4]
      · exact ⟨hD4, hK4⟩
    · unfold main_step
      dsimp only
      obtain ⟨hp1, hp2⟩ := pre_len th st i hD4 hK4
      obtain ⟨hr1, hr2⟩ := resolve_len th (pre_resolution th st i)
        (get_state th.HIP_KNEE_VERT (pyInt i.hip_vertical)) i.hip_vertical
        (max 0 (180 - pyInt i.knee_internal)) i.torso_tilt hp1 hp2
      obtain ⟨hs1, hs2⟩ := side_len th (resolve th (pre_resolution th st i)
        (get_state th.HIP_KNEE_VERT (pyInt i.hip_vertical)) i.hip_vertical
        (max 0 (180 - pyInt i.knee_internal)) i.torso_tilt).1 i.now
        (resolve th (pre_resolution th st i)
        (get_state th.HIP_KNEE_VERT (pyInt i.hip_vertical)) i.hip_vertical
        (max 0 (180 - pyInt i.knee_internal)) i.torso_tilt).2 hr1 hr2
      exact banner_ttl_len4 th _ hs1 hs2
  · unfold no_landmarks_step
    dsimp only
    split
    · constructor <;> simp [hard_reset_all, reset_live_flags, hD4, hK4]
    · exact ⟨hD4, hK4⟩

lemma activeRun_bound (idx : ℕ) (hidx : idx < 4) :
    ∀ (l : List FrameInput) (st : SessionState),
      st.DISPLAY_TEXT.length = 4 → st.COUNT_FRAMES.length = 4 →
      st.COUNT_FRAMES.getD idx 0 ≤ thB.CNT_FRAME_THRESH →
      (∀ i ∈ l, mainFrame thB i) → activeRun thB idx st l →
      (l.length : ℤ) + st.COUNT_FRAMES.getD idx 0 ≤
        thB.CNT_FRAME_THRESH := by
  intro l
  induction l with
  | nil =>
      intro st _ _ hle _ _
      simpa using hle
  | cons i t ih =>
      intro st hD4 hK4 hle hm hrun
      obtain ⟨hact, hrun2⟩ := hrun
      obtain ⟨hml, hmo⟩ := hm i (List.mem_cons_self i t)
      obtain ⟨hstep, hstep2⟩ := banner_step st i idx hml hmo hD4 hK4
        hidx hact
      obtain ⟨hD4n, hK4n⟩ := process_lengths thB st i hD4 hK4
      have := ih (process thB st i).1 hD4n hK4n hstep2
        (fun j hj => hm j (List.mem_cons_of_mem i hj)) hrun2
      rw [hstep] at this
      simp only [List.length_cons]
      push_cast
      push_cast at this
      omega

/-- C7: the banner time-to-live — when a banner's incremented
active-frame counter exceeds `CNT_FRAME_THRESH`, the sweep forcibly
clears both the flag and the counter; consequently, over any run of
main-path frames, a banner flag can remain set at the end of at most
`CNT_FRAME_THRESH` consecutive frames, whatever its trigger condition
does. -/
theorem C7_banner_ttl :
    (∀ (th : Thresholds) (st : SessionState) (idx : ℕ),
      idx < st.DISPLAY_TEXT.length → idx < st.COUNT_FRAMES.length →
      (if st.DISPLAY_TEXT.getD idx false then
          st.COUNT_FRAMES.getD idx 0 + 1
        else st.COUNT_FRAMES.getD idx 0) > th.CNT_FRAME_THRESH →
      (banner_ttl th st).DISPLAY_TEXT.getD idx false = false ∧
      (banner_ttl th st).COUNT_FRAMES.getD idx 0 = 0) ∧
    (∀ (idx : ℕ) (l : List FrameInput) (st : SessionState),
      idx < 4 →
      st.DISPLAY_TEXT.length = 4 → st.COUNT_FRAMES.length = 4 →
      0 ≤ st.COUNT_FRAMES.getD idx 0 →
      st.COUNT_FRAMES.getD idx 0 ≤ thB.CNT_FRAME_THRESH →
      (∀ i ∈ l, mainFrame thB i) → activeRun thB idx st l →
      (l.length : ℤ) ≤ thB.CNT_FRAME_THRESH) := by
  constructor
  · intro th st idx hD hK hgt
    obtain ⟨h1, h2⟩ := banner_ttl_getD th st idx hD hK
    rw [h1, h2, if_pos hgt, if_pos hgt]
    exact ⟨rfl, rfl⟩
  · intro idx l st hidx hD4 hK4 hnn hle hm hrun
    have := activeRun_bound idx hidx l st hD4 hK4 hle hm hrun
    omega

/-! ### C1: a full correct repetition, phase by phase -/

lemma processRun_append (th : Thresholds) (st : SessionState)
    (l m : List FrameInput) :
    processRun th st (l ++ m) = processRun th (processRun th st l) m := by
  simp only [processRun, List.foldl_append]

lemma le_maxFold (a : ℤ) (l : List FrameInput) : a ≤ maxFold a l := by
  induction l generalizing a with
  | nil => exact le_refl a
  | cons i l ih =>
      exact le_trans (le_max_left a (pyInt i.hip_vertical))
        (ih (max a (pyInt i.hip_vertical)))

lemma track_some_vals (st : SessionState) (a mn mx : ℤ)
    (hs2 : LegState.s2 ∈ st.state_seq) (h1 : st.rep_min_angle = some mn)
    (h2 : st.rep_max_angle = some mx) :
    (track_min_max st a).rep_min_angle = some (min mn a) ∧
    (track_min_max st a).rep_max_angle = some (max mx a) := by
  obtain ⟨sq, pv, cu, en, hk0, mn0, mx0, sit, T, sitf, Tf, D, K, P, CC, IC⟩ := st
  simp only at h1 h2 hs2
  subst h1 h2
  simp [track_min_max, hs2]

lemma resolve_branch_empty (st : SessionState)
    (hseq : st.state_seq = []) :
    (resolve_branch thB st).2 = some Sound.incorrect ∧
    (resolve_branch thB st).1.INCORRECT_COUNT = st.INCORRECT_COUNT + 1 ∧
    (resolve_branch thB st).1.CORRECT_COUNT = st.CORRECT_COUNT := by
  have h := resolve_branch_neg thB st (by
    rintro ⟨hfull, -⟩
    rw [hseq] at hfull
    cases hfull)
  exact ⟨h.1, h.2.1, h.2.2.1⟩

lemma init_first (t0 : ℚ) (i : FrameInput) (hg : goodFrame i)
    (hband : inS1 i) :
    RestInv (process thB (initState t0) i).1 0 1 i.now i.now := by
  obtain ⟨hl, ho, hk, htt⟩ := hg
  have ho' : ¬ i.offset_angle > thB.OFFSET_THRESH := by
    push_neg
    exact le_trans ho (by simp [thB, get_thresholds_leg_raises_beginner])
  have hnr : (initState t0).prev_state = some LegState.s1 →
      (initState t0).INACTIVE_TIME +
        (i.now - (initState t0).start_inactive_time) <
        thB.INACTIVE_THRESH := by
    intro h
    simp [initState] at h
  obtain ⟨hs, hCC, hII, h4, h5, h6, h7, h8, h9, h10, h11, _, _, _, hTn, han⟩ :=
    process_s1_frame (initState t0) i hl ho' hband hnr
  obtain ⟨p1, p2, p3, p4, p5, p6, p7, p8, p9, p10, p11, p12, p13, p14⟩ :=
    pre_resolution_s1 (initState t0) i hband
  have hbr := resolve_branch_empty (pre_resolution thB (initState t0) i)
    (by rw [p1]; rfl)
  refine ⟨h4, h5, h6, h7, h8, h9, h10, h11, ?_, ?_, ?_, han⟩
  · rw [hCC, hbr.2.2, p9]
    rfl
  · rw [hII, hbr.2.1, p10]
    rfl
  · rw [hTn (by simp [initState])]
    exact (sub_self i.now).symm

lemma rest_step (st : SessionState) (C I : ℕ) (tprev t1 : ℚ)
    (i : FrameInput) (hg : goodFrame i) (hband : inS1 i)
    (hbound : i.now < t1 + 15) (hinv : RestInv st C I tprev t1) :
    RestInv (process thB st i).1 C (I + 1) i.now t1 ∧
      (process thB st i).2 = some Sound.incorrect := by
  obtain ⟨hseq, hprev, hcurr, hen, hhold, hmn, hmx, hpost, hC, hI, hT, han⟩ :=
    hinv
  obtain ⟨hl, ho, hk, htt⟩ := hg
  have ho' : ¬ i.offset_angle > thB.OFFSET_THRESH := by
    push_neg
    exact le_trans ho (by simp [thB, get_thresholds_leg_raises_beginner])
  have hnr : st.prev_state = some LegState.s1 →
      st.INACTIVE_TIME + (i.now - st.start_inactive_time) <
        thB.INACTIVE_THRESH := by
    intro _
    rw [hT, han]
    simp only [thB, get_thresholds_leg_raises_beginner]
    linarith
  obtain ⟨hs, hCC, hII, h4, h5, h6, h7, h8, h9, h10, h11, _, _, hTp, _, hanr⟩ :=
    process_s1_frame st i hl ho' hband hnr
  obtain ⟨p1, p2, p3, p4, p5, p6, p7, p8, p9, p10, p11, p12, p13, p14⟩ :=
    pre_resolution_s1 st i hband
  have hbr := resolve_branch_empty (pre_resolution thB st i)
    (by rw [p1, hseq])
  refine ⟨⟨h4, h5, h6, h7, h8, h9, h10, h11, ?_, ?_, ?_, hanr⟩, ?_⟩
  · rw [hCC, hbr.2.2, p9, hC]
  · rw [hII, hbr.2.1, p10, hI]
  · rw [hTp hprev, hT, han]
    ring
  · rw [hs]
    exact hbr.1

lemma rest_run (l : List FrameInput) :
    ∀ (st : SessionState) (C I : ℕ) (tprev t1 : ℚ),
      (∀ i ∈ l, goodFrame i ∧ inS1 i ∧ i.now < t1 + 15) →
      RestInv st C I tprev t1 →
      RestInv (processRun thB st l) C (I + l.length) (lastTime tprev l) t1 := by
  induction l with
  | nil =>
      intro st C I tprev t1 _ hinv
      exact hinv
  | cons i l ih =>
      intro st C I tprev t1 hall hinv
      have hi := hall i (List.mem_cons_self i l)
      have hstep := rest_step st C I tprev t1 i hi.1 hi.2.1 hi.2.2 hinv
      have hrec := ih (process thB st i).1 C (I + 1) i.now t1
        (fun j hj => hall j (List.mem_cons_of_mem i hj)) hstep.1
      have heq : I + (i :: l).length = I + 1 + l.length := by
        rw [List.length_cons]
        omega
      rw [heq]
      exact hrec

lemma s2a_first (st : SessionState) (C I : ℕ) (tprev t1 : ℚ)
    (i : FrameInput) (hg : goodFrame i) (hband : inS2 i)
    (hinv : RestInv st C I tprev t1) :
    S2Inv (process thB st i).1 C I (pyInt i.hip_vertical)
      (pyInt i.hip_vertical) i.now i.now ∧ (process thB st i).2 = none := by
  obtain ⟨sq, pv, cu, en, hk0, mn0, mx0, sit, T, sitf, Tf, D, K, P, CC, IC⟩ := st
  obtain ⟨hseq, hprev, hcurr, hen, hhold, hmn, hmx, hpost, hC, hI, hT, han⟩ :=
    hinv
  obtain ⟨hl, ho, hk, htt⟩ := hg
  obtain ⟨hb1, hb2⟩ := hband
  simp only at hseq hprev hcurr hen hhold hmn hmx hpost hC hI hT han
  subst hseq hprev hcurr hen hhold hmn hmx hpost hC hI hT han
  have hcur : get_state thB.HIP_KNEE_VERT (pyInt i.hip_vertical) =
      some LegState.s2 := get_state_s2 _ hb1 hb2
  have hupd : update_state_sequence [] (some LegState.s2) = [LegState.s2] := by
    decide
  have hknee' : ¬ ((0:ℤ) ⊔ (180 - pyInt i.knee_internal) > thB.KNEE_LOCK_MAX) := by
    simp only [thB, get_thresholds_leg_raises_beginner]
    omega
  have htor' : ¬ (i.torso_tilt > thB.TORSO_TILT_MAX) := by
    simp only [thB, get_thresholds_leg_raises_beginner]
    exact not_lt.mpr htt
  have hhip' : i.hip_vertical < ((thB.HIP_KNEE_VERT.PASS.1 : ℤ) : ℚ) := by
    simp only [thB, get_thresholds_leg_raises_beginner]
    by_contra hc
    push_neg at hc
    have : (61:ℤ) ≤ pyInt i.hip_vertical := by
      rw [pyInt, if_pos (le_trans (by norm_num) hc)]
      exact Int.le_floor.mpr (by exact_mod_cast hc)
    omega
  simp only [process, hl, if_true]
  rw [if_neg (by
    push_neg
    exact le_trans ho (by simp [thB, get_thresholds_leg_raises_beginner]))]
  simp only [main_step, pre_resolution, hcur, hupd, track_min_max,
    hold_update, suppress_s3, resolve, side_inactivity, banner_ttl]
  simp [S2Inv, hknee', htor', hhip']

lemma s2a_step (st : SessionState) (C I : ℕ) (mn mx : ℤ) (tprev t2 : ℚ)
    (i : FrameInput) (hg : goodFrame i) (hband : inS2 i)
    (hbound : i.now < t2 + 15) (hinv : S2Inv st C I mn mx tprev t2) :
    S2Inv (process thB st i).1 C I (min mn (pyInt i.hip_vertical))
      (max mx (pyInt i.hip_vertical)) i.now t2 ∧
      (process thB st i).2 = none := by
  obtain ⟨sq, pv, cu, en, hk0, mn0, mx0, sit, T, sitf, Tf, D, K, P, CC, IC⟩ := st
  obtain ⟨hseq, hprev, hcurr, hen, hhold, hmn, hmx, hpost, hC, hI, hT, han⟩ :=
    hinv
  obtain ⟨hl, ho, hk, htt⟩ := hg
  obtain ⟨hb1, hb2⟩ := hband
  simp only at hseq hprev hcurr hen hhold hmn hmx hpost hC hI hT han
  subst hseq hprev hcurr hen hhold hmn hmx hpost hC hI hT han
  have hcur : get_state thB.HIP_KNEE_VERT (pyInt i.hip_vertical) =
      some LegState.s2 := get_state_s2 _ hb1 hb2
  have hupd : update_state_sequence [LegState.s2] (some LegState.s2) =
      [LegState.s2] := by decide
  have hknee' : ¬ ((0:ℤ) ⊔ (180 - pyInt i.knee_internal) > thB.KNEE_LOCK_MAX) := by
    simp only [thB, get_thresholds_leg_raises_beginner]
    omega
  have htor' : ¬ (i.torso_tilt > thB.TORSO_TILT_MAX) := by
    simp only [thB, get_thresholds_leg_raises_beginner]
    exact not_lt.mpr htt
  have hhip' : i.hip_vertical < ((thB.HIP_KNEE_VERT.PASS.1 : ℤ) : ℚ) := by
    simp only [thB, get_thresholds_leg_raises_beginner]
    by_contra hc
    push_neg at hc
    have : (61:ℤ) ≤ pyInt i.hip_vertical := by
      rw [pyInt, if_pos (le_trans (by norm_num) hc)]
      exact Int.le_floor.mpr (by exact_mod_cast hc)
    omega
  have hnores : ¬ (thB.INACTIVE_THRESH ≤ i.now - t2) := by
    simp only [thB, get_thresholds_leg_raises_beginner]
    push_neg
    linarith
  simp only [process, hl, if_true]
  rw [if_neg (by
    push_neg
    exact le_trans ho (by simp [thB, get_thresholds_leg_raises_beginner]))]
  simp only [main_step, pre_resolution, hcur, hupd, track_min_max,
    hold_update, suppress_s3, resolve, side_inactivity, banner_ttl]
  simp [S2Inv, hknee', htor', hhip', hnores]

lemma s2a_run (l : List FrameInput) :
    ∀ (st : SessionState) (C I : ℕ) (mn mx : ℤ) (tprev t2 : ℚ),
      (∀ i ∈ l, goodFrame i ∧ inS2 i ∧ i.now < t2 + 15) →
      S2Inv st C I mn mx tprev t2 →
      S2Inv (processRun thB st l) C I (minFold mn l) (maxFold mx l)
        (lastTime tprev l) t2 := by
  induction l with
  | nil =>
      intro st C I mn mx tprev t2 _ hinv
      exact hinv
  | cons i l ih =>
      intro st C I mn mx tprev t2 hall hinv
      have hi := hall i (List.mem_cons_self i l)
      have hstep := s2a_step st C I mn mx tprev t2 i hi.1 hi.2.1 hi.2.2 hinv
      exact ih (process thB st i).1 C I _ _ i.now t2
        (fun j hj => hall j (List.mem_cons_of_mem i hj)) hstep.1

lemma s3_first (st : SessionState) (C I : ℕ) (mn mx : ℤ) (tprev t2 : ℚ)
    (i : FrameInput) (hg : goodFrame i) (hband : inS3 i)
    (hinv : S2Inv st C I mn mx tprev t2) :
    S3Inv (process thB st i).1 C I (min mn (pyInt i.hip_vertical))
      (max mx (pyInt i.hip_vertical)) i.now i.now ∧
      (process thB st i).2 = none := by
  obtain ⟨sq, pv, cu, en, hk0, mn0, mx0, sit, T, sitf, Tf, D, K, P, CC, IC⟩ := st
  obtain ⟨hseq, hprev, hcurr, hen, hhold, hmn, hmx, hpost, hC, hI, hT, han⟩ :=
    hinv
  obtain ⟨hl, ho, hk, htt⟩ := hg
  obtain ⟨hb1, hb2⟩ := hband
  simp only at hseq hprev hcurr hen hhold hmn hmx hpost hC hI hT han
  subst hseq hprev hcurr hen hhold hmn hmx hpost hC hI hT han
  have hcur : get_state thB.HIP_KNEE_VERT (pyInt i.hip_vertical) =
      some LegState.s3 := get_state_s3 _ hb1 hb2
  have hupd : update_state_sequence [LegState.s2] (some LegState.s3) =
      [LegState.s2, LegState.s3] := by decide
  have hdec : decide ((5:ℚ) ≤ i.now - i.now) = false := by
    simp
  simp only [process, hl, if_true]
  rw [if_neg (by
    push_neg
    exact le_trans ho (by simp [thB, get_thresholds_leg_raises_beginner]))]
  simp only [main_step, pre_resolution, hcur, hupd, track_min_max,
    hold_update, suppress_s3, resolve, side_inactivity, banner_ttl]
  simp [S3Inv, hdec]

lemma s3_step (st : SessionState) (C I : ℕ) (mn mx : ℤ) (tenter tprev : ℚ)
    (i : FrameInput) (hg : goodFrame i) (hband : inS3 i)
    (hmono : tprev ≤ i.now) (hbound : i.now < tenter + 15)
    (hinv : S3Inv st C I mn mx tenter tprev) :
    S3Inv (process thB st i).1 C I (min mn (pyInt i.hip_vertical))
      (max mx (pyInt i.hip_vertical)) tenter i.now ∧
      (process thB st i).2 = none := by
  obtain ⟨sq, pv, cu, en, hk0, mn0, mx0, sit, T, sitf, Tf, D, K, P, CC, IC⟩ := st
  obtain ⟨hseq, hprev, hcurr, hen, hhold, hmn, hmx, hpost, hC, hI, hT, han⟩ :=
    hinv
  obtain ⟨hl, ho, hk, htt⟩ := hg
  obtain ⟨hb1, hb2⟩ := hband
  simp only at hseq hprev hcurr hen hhold hmn hmx hpost hC hI hT han
  subst hseq hprev hcurr hen hhold hmn hmx hpost hC hI hT
  have hcur : get_state thB.HIP_KNEE_VERT (pyInt i.hip_vertical) =
      some LegState.s3 := get_state_s3 _ hb1 hb2
  have hupd : update_state_sequence [LegState.s2, LegState.s3]
      (some LegState.s3) = [LegState.s2, LegState.s3] := by decide
  have hnores : ¬ (thB.INACTIVE_THRESH ≤ i.now - tenter) := by
    simp only [thB, get_thresholds_leg_raises_beginner]
    push_neg
    linarith
  simp only [process, hl, if_true]
  rw [if_neg (by
    push_neg
    exact le_trans ho (by simp [thB, get_thresholds_leg_raises_beginner]))]
  simp only [main_step, pre_resolution, hcur, hupd, track_min_max,
    hold_update, suppress_s3, resolve, side_inactivity, banner_ttl]
  by_cases h5 : TARGET_HOLD ≤ i.now - tenter
  · have hdec : decide ((5:ℚ) ≤ i.now - tenter) = true :=
      decide_eq_true (by exact h5)
    simp [S3Inv, h5, hdec, hnores, han]
  · have h5q : ¬ ((5:ℚ) ≤ i.now - tenter) := by exact h5
    have hold_old : ¬ ((5:ℚ) ≤ tprev - tenter) := fun hc => h5q (by linarith)
    have hdec : decide ((5:ℚ) ≤ i.now - tenter) = false := decide_eq_false h5q
    have hdec2 : decide ((5:ℚ) ≤ tprev - tenter) = false :=
      decide_eq_false hold_old
    simp [S3Inv, h5, hdec, hdec2, hnores, han]

lemma s3_run (l : List FrameInput) :
    ∀ (st : SessionState) (C I : ℕ) (mn mx : ℤ) (tenter tprev : ℚ),
      Mono tprev l →
      (∀ i ∈ l, goodFrame i ∧ inS3 i ∧ i.now < tenter + 15) →
      S3Inv st C I mn mx tenter tprev →
      S3Inv (processRun thB st l) C I (minFold mn l) (maxFold mx l)
        tenter (lastTime tprev l) := by
  induction l with
  | nil =>
      intro st C I mn mx tenter tprev _ _ hinv
      exact hinv
  | cons i l ih =>
      intro st C I mn mx tenter tprev hmono hall hinv
      have hi := hall i (List.mem_cons_self i l)
      have hstep := s3_step st C I mn mx tenter tprev i hi.1 hi.2.1
        hmono.1 hi.2.2 hinv
      exact ih (process thB st i).1 C I _ _ tenter i.now hmono.2
        (fun j hj => hall j (List.mem_cons_of_mem i hj)) hstep.1

lemma s2b_first (st : SessionState) (C I : ℕ) (mn mx : ℤ)
    (tenter tprev : ℚ) (i : FrameInput) (hg : goodFrame i) (hband : inS2 i)
    (hinv : S3Inv st C I mn mx tenter tprev) :
    S2bInv (process thB st i).1 C I (min mn (pyInt i.hip_vertical))
      (max mx (pyInt i.hip_vertical)) (decide (5 ≤ tprev - tenter))
      i.now i.now ∧ (process thB st i).2 = none := by
  obtain ⟨sq, pv, cu, en, hk0, mn0, mx0, sit, T, sitf, Tf, D, K, P, CC, IC⟩ := st
  obtain ⟨hseq, hprev, hcurr, hen, hhold, hmn, hmx, hpost, hC, hI, hT, han⟩ :=
    hinv
  obtain ⟨hl, ho, hk, htt⟩ := hg
  obtain ⟨hb1, hb2⟩ := hband
  simp only at hseq hprev hcurr hen hhold hmn hmx hpost hC hI hT han
  subst hseq hprev hcurr hen hhold hmn hmx hpost hC hI hT han
  have hcur : get_state thB.HIP_KNEE_VERT (pyInt i.hip_vertical) =
      some LegState.s2 := get_state_s2 _ hb1 hb2
  have hupd : update_state_sequence [LegState.s2, LegState.s3]
      (some LegState.s2) =
      [LegState.s2, LegState.s3, LegState.s2] := by decide
  have hknee' : ¬ ((0:ℤ) ⊔ (180 - pyInt i.knee_internal) > thB.KNEE_LOCK_MAX) := by
    simp only [thB, get_thresholds_leg_raises_beginner]
    omega
  have htor' : ¬ (i.torso_tilt > thB.TORSO_TILT_MAX) := by
    simp only [thB, get_thresholds_leg_raises_beginner]
    exact not_lt.mpr htt
  have hhip' : i.hip_vertical < ((thB.HIP_KNEE_VERT.PASS.1 : ℤ) : ℚ) := by
    simp only [thB, get_thresholds_leg_raises_beginner]
    by_contra hc
    push_neg at hc
    have : (61:ℤ) ≤ pyInt i.hip_vertical := by
      rw [pyInt, if_pos (le_trans (by norm_num) hc)]
      exact Int.le_floor.mpr (by exact_mod_cast hc)
    omega
  simp only [process, hl, if_true]
  rw [if_neg (by
    push_neg
    exact le_trans ho (by simp [thB, get_thresholds_leg_raises_beginner]))]
  simp only [main_step, pre_resolution, hcur, hupd, track_min_max,
    hold_update, suppress_s3, resolve, side_inactivity, banner_ttl]
  simp [S2bInv, hknee', htor', hhip']

lemma s2b_step (st : SessionState) (C I : ℕ) (mn mx : ℤ) (hb : Bool)
    (tprev t4 : ℚ) (i : FrameInput) (hg : goodFrame i) (hband : inS2 i)
    (hbound : i.now < t4 + 15)
    (hinv : S2bInv st C I mn mx hb tprev t4) :
    S2bInv (process thB st i).1 C I (min mn (pyInt i.hip_vertical))
      (max mx (pyInt i.hip_vertical)) hb i.now t4 ∧
      (process thB st i).2 = none := by
  obtain ⟨sq, pv, cu, en, hk0, mn0, mx0, sit, T, sitf, Tf, D, K, P, CC, IC⟩ := st
  obtain ⟨hseq, hprev, hcurr, hen, hhold, hmn, hmx, hpost, hC, hI, hT, han⟩ :=
    hinv
  obtain ⟨hl, ho, hk, htt⟩ := hg
  obtain ⟨hb1, hb2⟩ := hband
  simp only at hseq hprev hcurr hen hhold hmn hmx hpost hC hI hT han
  subst hseq hprev hcurr hen hhold hmn hmx hpost hC hI hT han
  have hcur : get_state thB.HIP_KNEE_VERT (pyInt i.hip_vertical) =
      some LegState.s2 := get_state_s2 _ hb1 hb2
  have hupd : update_state_sequence [LegState.s2, LegState.s3, LegState.s2]
      (some LegState.s2) =
      [LegState.s2, LegState.s3, LegState.s2] := by decide
  have hknee' : ¬ ((0:ℤ) ⊔ (180 - pyInt i.knee_internal) > thB.KNEE_LOCK_MAX) := by
    simp only [thB, get_thresholds_leg_raises_beginner]
    omega
  have htor' : ¬ (i.torso_tilt > thB.TORSO_TILT_MAX) := by
    simp only [thB, get_thresholds_leg_raises_beginner]
    exact not_lt.mpr htt
  have hhip' : i.hip_vertical < ((thB.HIP_KNEE_VERT.PASS.1 : ℤ) : ℚ) := by
    simp only [thB, get_thresholds_leg_raises_beginner]
    by_contra hc
    push_neg at hc
    have : (61:ℤ) ≤ pyInt i.hip_vertical := by
      rw [pyInt, if_pos (le_trans (by norm_num) hc)]
      exact Int.le_floor.mpr (by exact_mod_cast hc)
    omega
  have hnores : ¬ (thB.INACTIVE_THRESH ≤ i.now - t4) := by
    simp only [thB, get_thresholds_leg_raises_beginner]
    push_neg
    linarith
  simp only [process, hl, if_true]
  rw [if_neg (by
    push_neg
    exact le_trans ho (by simp [thB, get_thresholds_leg_raises_beginner]))]
  simp only [main_step, pre_resolution, hcur, hupd, track_min_max,
    hold_update, suppress_s3, resolve, side_inactivity, banner_ttl]
  simp [S2bInv, hknee', htor', hhip', hnores]

lemma s2b_run (l : List FrameInput) :
    ∀ (st : SessionState) (C I : ℕ) (mn mx : ℤ) (hb : Bool) (tprev t4 : ℚ),
      (∀ i ∈ l, goodFrame i ∧ inS2 i ∧ i.now < t4 + 15) →
      S2bInv st C I mn mx hb tprev t4 →
      S2bInv (processRun thB st l) C I (minFold mn l) (maxFold mx l) hb
        (lastTime tprev l) t4 := by
  induction l with
  | nil =>
      intro st C I mn mx hb tprev t4 _ hinv
      exact hinv
  | cons i l ih =>
      intro st C I mn mx hb tprev t4 hall hinv
      have hi := hall i (List.mem_cons_self i l)
      have hstep := s2b_step st C I mn mx hb tprev t4 i hi.1 hi.2.1
        hi.2.2 hinv
      exact ih (process thB st i).1 C I _ _ hb i.now t4
        (fun j hj => hall j (List.mem_cons_of_mem i hj)) hstep.1

lemma final_step (st : SessionState) (C I : ℕ) (mn mx : ℤ) (tprev t4 : ℚ)
    (i : FrameInput) (hg : goodFrame i) (hband : inS1 i) (hmx61 : 61 ≤ mx)
    (hinv : S2bInv st C I mn mx true tprev t4) :
    (process thB st i).1.CORRECT_COUNT = C + 1 ∧
    (process thB st i).1.INCORRECT_COUNT = I ∧
    (process thB st i).2 = some (Sound.count (C + 1)) := by
  obtain ⟨hseq, hprev, hcurr, hen, hhold, hmna, hmxa, hpost, hC, hI, hT, han⟩ :=
    hinv
  obtain ⟨hl, ho, hk, htt⟩ := hg
  have ho' : ¬ i.offset_angle > thB.OFFSET_THRESH := by
    push_neg
    exact le_trans ho (by simp [thB, get_thresholds_leg_raises_beginner])
  have hnr : st.prev_state = some LegState.s1 →
      st.INACTIVE_TIME + (i.now - st.start_inactive_time) <
        thB.INACTIVE_THRESH := by
    intro h
    rw [hprev] at h
    simp at h
  obtain ⟨hs, hCC, hII, _, _, _, _, _, _, _, _, _, _, _, _, _⟩ :=
    process_s1_frame st i hl ho' hband hnr
  obtain ⟨p1, p2, p3, p4, p5, p6, p7, p8, p9, p10, p11, p12, p13, p14⟩ :=
    pre_resolution_s1 st i hband
  have htr := track_some_vals st (pyInt i.hip_vertical) mn mx
    (by rw [hseq]; decide) hmna hmxa
  have hrange : thB.REP_MIN_RANGE ≤
      max mx (pyInt i.hip_vertical) - min mn (pyInt i.hip_vertical) := by
    have e1 := le_max_left mx (pyInt i.hip_vertical)
    have e2 := min_le_right mn (pyInt i.hip_vertical)
    have e3 := hband.2
    simp only [thB, get_thresholds_leg_raises_beginner]
    omega
  have hpos := resolve_branch_pos thB (pre_resolution thB st i)
    (min mn (pyInt i.hip_vertical)) (max mx (pyInt i.hip_vertical))
    (by rw [p1, hseq])
    (by rw [p2, hprev]; simp)
    (by rw [p8, hpost])
    (by rw [p5, hhold])
    (p6.trans htr.1)
    (p7.trans htr.2)
    hrange
  refine ⟨?_, ?_, ?_⟩
  · rw [hCC, hpos]
    show (pre_resolution thB st i).CORRECT_COUNT + 1 = C + 1
    rw [p9, hC]
  · rw [hII, hpos]
    show (pre_resolution thB st i).INCORRECT_COUNT = I
    rw [p10, hI]
  · rw [hs, hpos]
    show some (Sound.count ((pre_resolution thB st i).CORRECT_COUNT + 1)) =
      some (Sound.count (C + 1))
    rw [p9, hC]

/-- C1 (amended): a run that rests at s1, rises through s2, dwells in s3
for at least the fixed `TARGET_HOLD = 5` seconds of `process` (the
profile's `HOLD_SEC` plays no role), returns through s2 and closes at s1
— with landmarks present, camera aligned, knee and torso clean, and each
phase shorter than the 15-second inactivity window — ends with
`CORRECT_COUNT = 1`, emits the count sound, and has
`INCORRECT_COUNT = l1.length + 1`: contrary to the original claim, the
resting s1 frames before the rep each increment the incorrect counter,
so `INCORRECT_COUNT` does not stay 0 over the rep. -/
theorem C1_correct_rep_run (t0 : ℚ) (f1 f2 f3 f4 f5 : FrameInput)
    (l1 l2 l3 l4 : List FrameInput)
    (hf1 : goodFrame f1 ∧ inS1 f1)
    (hl1 : ∀ i ∈ l1, goodFrame i ∧ inS1 i ∧ i.now < f1.now + 15)
    (hf2 : goodFrame f2 ∧ inS2 f2)
    (hl2 : ∀ i ∈ l2, goodFrame i ∧ inS2 i ∧ i.now < f2.now + 15)
    (hf3 : goodFrame f3 ∧ inS3 f3)
    (hl3 : ∀ i ∈ l3, goodFrame i ∧ inS3 i ∧ i.now < f3.now + 15)
    (hmono3 : Mono f3.now l3)
    (hdwell : TARGET_HOLD ≤ lastTime f3.now l3 - f3.now)
    (hf4 : goodFrame f4 ∧ inS2 f4)
    (hl4 : ∀ i ∈ l4, goodFrame i ∧ inS2 i ∧ i.now < f4.now + 15)
    (hf5 : goodFrame f5 ∧ inS1 f5) :
    (process thB (processRun thB (initState t0)
        (f1 :: l1 ++ f2 :: l2 ++ f3 :: l3 ++ f4 :: l4)) f5).1.CORRECT_COUNT
      = 1 ∧
    (process thB (processRun thB (initState t0)
        (f1 :: l1 ++ f2 :: l2 ++ f3 :: l3 ++ f4 :: l4)) f5).1.INCORRECT_COUNT
      = l1.length + 1 ∧
    (process thB (processRun thB (initState t0)
        (f1 :: l1 ++ f2 :: l2 ++ f3 :: l3 ++ f4 :: l4)) f5).2
      = some (Sound.count 1) := by
  have hsplit : processRun thB (initState t0)
      (f1 :: l1 ++ f2 :: l2 ++ f3 :: l3 ++ f4 :: l4) =
      processRun thB (process thB (processRun thB (process thB
        (processRun thB (process thB (processRun thB (process thB
          (initState t0) f1).1 l1) f2).1 l2) f3).1 l3) f4).1 l4 := by
    simp only [processRun, List.foldl_append, List.foldl_cons]
  have h0 := init_first t0 f1 hf1.1 hf1.2
  have h1 := rest_run l1 (process thB (initState t0) f1).1 0 1
    f1.now f1.now hl1 h0
  have h2 := s2a_first _ 0 (1 + l1.length) (lastTime f1.now l1) f1.now
    f2 hf2.1 hf2.2 h1
  have h3 := s2a_run l2 _ 0 (1 + l1.length) _ _ f2.now f2.now hl2 h2.1
  have h4 := s3_first _ 0 (1 + l1.length) _ _ (lastTime f2.now l2) f2.now
    f3 hf3.1 hf3.2 h3
  have h5 := s3_run l3 _ 0 (1 + l1.length) _ _ f3.now f3.now hmono3 hl3 h4.1
  have h6 := s2b_first _ 0 (1 + l1.length) _ _ f3.now (lastTime f3.now l3)
    f4 hf4.1 hf4.2 h5
  have hd5 : (5:ℚ) ≤ lastTime f3.now l3 - f3.now := hdwell
  have h6' := h6.1
  rw [decide_eq_true hd5] at h6'
  have h7 := s2b_run l4 _ 0 (1 + l1.length) _ _ true f4.now f4.now hl4 h6'
  have hmx61 : (61:ℤ) ≤ maxFold (max (maxFold (max (maxFold
      (pyInt f2.hip_vertical) l2) (pyInt f3.hip_vertical)) l3)
      (pyInt f4.hip_vertical)) l4 := by
    have e1 := le_max_right (maxFold (pyInt f2.hip_vertical) l2)
      (pyInt f3.hip_vertical)
    have e2 := le_maxFold (max (maxFold (pyInt f2.hip_vertical) l2)
      (pyInt f3.hip_vertical)) l3
    have e3 := le_max_left (maxFold (max (maxFold (pyInt f2.hip_vertical) l2)
      (pyInt f3.hip_vertical)) l3) (pyInt f4.hip_vertical)
    have e4 := le_maxFold (max (maxFold (max (maxFold
      (pyInt f2.hip_vertical) l2) (pyInt f3.hip_vertical)) l3)
      (pyInt f4.hip_vertical)) l4
    have h61 := hf3.2.1
    linarith
  have h8 := final_step _ 0 (1 + l1.length) _ _ (lastTime f4.now l4) f4.now
    f5 hf5.1 hf5.2 hmx61 h7
  refine ⟨?_, ?_, ?_⟩
  · rw [hsplit]
    exact h8.1
  · rw [hsplit, h8.2.1]
    omega
  · rw [hsplit]
    exact h8.2.2

/-- Concrete instance of the amended C1 run (the Scenario A timing with
the s3 dwell stretched to 5.2 s): hold satisfied, one correct rep
counted, and the two leading rest frames leave `INCORRECT_COUNT = 2`. -/
theorem C1_correct_rep_run_witness :
    goodFrame (mkFrame 5 0) ∧
    TARGET_HOLD ≤ lastTime (mkFrame 70 (3/10)).now
      [mkFrame 70 2, mkFrame 70 4, mkFrame 70 (55/10)] -
      (mkFrame 70 (3/10)).now ∧
    ((process thB (processRun thB (initState 0)
        (mkFrame 5 0 :: [mkFrame 5 (1/10)] ++ mkFrame 30 (2/10) :: [] ++
          mkFrame 70 (3/10) ::
            [mkFrame 70 2, mkFrame 70 4, mkFrame 70 (55/10)] ++
          mkFrame 30 (56/10) :: []))
        (mkFrame 5 (57/10))).1.CORRECT_COUNT = 1 ∧
      (process thB (processRun thB (initState 0)
        (mkFrame 5 0 :: [mkFrame 5 (1/10)] ++ mkFrame 30 (2/10) :: [] ++
          mkFrame 70 (3/10) ::
            [mkFrame 70 2, mkFrame 70 4, mkFrame 70 (55/10)] ++
          mkFrame 30 (56/10) :: []))
        (mkFrame 5 (57/10))).1.INCORRECT_COUNT = 2 ∧
      (process thB (processRun thB (initState 0)
        (mkFrame 5 0 :: [mkFrame 5 (1/10)] ++ mkFrame 30 (2/10) :: [] ++
          mkFrame 70 (3/10) ::
            [mkFrame 70 2, mkFrame 70 4, mkFrame 70 (55/10)] ++
          mkFrame 30 (56/10) :: []))
        (mkFrame 5 (57/10))).2 = some (Sound.count 1)) := by
  refine ⟨?_, ?_, ?_⟩
  · norm_num [goodFrame, mkFrame, pyInt]
  · norm_num [lastTime, mkFrame, TARGET_HOLD]
  · exact C1_correct_rep_run 0 (mkFrame 5 0) (mkFrame 30 (2/10))
      (mkFrame 70 (3/10)) (mkFrame 30 (56/10)) (mkFrame 5 (57/10))
      [mkFrame 5 (1/10)] [] [mkFrame 70 2, mkFrame 70 4, mkFrame 70 (55/10)]
      []
      (by norm_num [goodFrame, inS1, mkFrame, pyInt])
      (by
        intro j hj
        simp only [List.mem_singleton] at hj
        subst hj
        norm_num [goodFrame, inS1, mkFrame, pyInt])
      (by norm_num [goodFrame, inS2, mkFrame, pyInt])
      (by intro j hj; cases hj)
      (by norm_num [goodFrame, inS3, mkFrame, pyInt])
      (by
        intro j hj
        simp only [List.mem_cons, List.not_mem_nil, or_false] at hj
        rcases hj with rfl | rfl | rfl
        · norm_num [goodFrame, inS3, mkFrame, pyInt]
        · norm_num [goodFrame, inS3, mkFrame, pyInt]
        · norm_num [goodFrame, inS3, mkFrame, pyInt])
      (by norm_num [Mono, mkFrame])
      (by norm_num [lastTime, mkFrame, TARGET_HOLD])
      (by norm_num [goodFrame, inS2, mkFrame, pyInt])
      (by intro j hj; cases hj)
      (by norm_num [goodFrame, inS1, mkFrame, pyInt])

/-- Concrete instance of the C4 resolution dichotomy: from the fresh
state, an s1 frame fails `correct_rep_cond` and resolves INCORRECT. -/
theorem C4_resolution_witness :
    2 < (initState 0).DISPLAY_TEXT.length ∧
    (process thB (initState 0) (mkFrame 5 1)).2 = some Sound.incorrect :=
  ⟨by norm_num [initState],
    ((C4_resolution (initState 0) (mkFrame 5 1) rfl
      (by norm_num [mkFrame, thB, get_thresholds_leg_raises_beginner])
      (by norm_num [inS1, mkFrame, pyInt])
      (by norm_num [initState])
      (by intro h; simp [initState] at h)).2.1
      (by intro hc; simp [correct_rep_cond, initState] at hc)).1⟩

/-- Concrete instance of C5: a resting s1 frame from the fresh state is
no no-op — it increments the incorrect counter and emits the incorrect
sound. -/
theorem C5_no_noop_resolution_witness :
    inS1 (mkFrame 5 1) ∧
    ((process thB (initState 0) (mkFrame 5 1)).2 = some Sound.incorrect ∧
      (process thB (initState 0) (mkFrame 5 1)).1.INCORRECT_COUNT =
        (initState 0).INCORRECT_COUNT + 1 ∧
      (process thB (initState 0) (mkFrame 5 1)).1.CORRECT_COUNT =
        (initState 0).CORRECT_COUNT) :=
  ⟨by norm_num [inS1, mkFrame, pyInt],
    (C5_no_noop_resolution (initState 0) (mkFrame 5 1) rfl
      (by norm_num [mkFrame, thB, get_thresholds_leg_raises_beginner])
      (by norm_num [inS1, mkFrame, pyInt])
      (by intro h; simp [initState] at h)).2 rfl⟩

/-- Concrete instance of the C6 misaligned branch: one misaligned frame
from the fresh state accumulates the front timer, zeroes the side timer,
and produces no event. -/
theorem C6_offset_branch_witness :
    process thB (initState 0)
        ⟨true, 40, 5, 180, 0, 1⟩ =
      ({ initState 0 with
          INACTIVE_TIME_FRONT :=
            (initState 0).INACTIVE_TIME_FRONT +
              ((1:ℚ) - (initState 0).start_inactive_time_front)
          start_inactive_time_front := 1
          INACTIVE_TIME := 0
          start_inactive_time := 1 }, none) :=
  (C6_offset_branch thB (initState 0) ⟨true, 40, 5, 180, 0, 1⟩ rfl
    (by show (40:ℚ) > thB.OFFSET_THRESH
        norm_num [thB, get_thresholds_leg_raises_beginner])).1
    (by show ¬ ((0:ℚ) + ((1:ℚ) - 0) ≥ thB.INACTIVE_THRESH)
        norm_num [thB, get_thresholds_leg_raises_beginner])

end PhysioPal
